import Mathlib

/-!
Verification of the prediction and valuation engine of the ncaa-basketball
repository (NCAA engine in `analyze_games.py` / `config.py`, NBA engine in
`nba/nba_analyzer.py` / `nba/nba_config.py`).

Python floats are modelled as exact rationals (`ℚ`).  Python's `round(x, 1)`
is modelled by `round10` (round half up); the two agree except on exact
`.05` ties, which none of the concrete inputs used below hit.  Python's
truthiness of an optional numeric (`x or y` falls through on `None` and `0`)
is modelled by `pyOr` / `pyTruthy`.  A Python dict lookup of an absent or
`None` entry is modelled by an `Option` field.  Transcendental helpers
(`scipy.stats.norm.cdf`, `math.erf`) are passed in as an abstract function
argument `cdf : ℚ → ℚ`; no claim below depends on its values.
-/

/-- Python truthiness filter for an optional numeric: `None` and `0` are
falsy, any other value passes through. -/
def pyTruthy (a : Option ℚ) : Option ℚ :=
  match a with
  | none => none
  | some x => if x = 0 then none else some x

/-- Python `a or b` where `a` is an optional numeric and `b` a number:
returns `a` when it is truthy (present and nonzero), else `b`. -/
def pyOr (a : Option ℚ) (b : ℚ) : ℚ :=
  match pyTruthy a with
  | some x => x
  | none => b

/-- Python `a or b or c` for two optional numerics and a final constant. -/
def firstTruthy (a b : Option ℚ) (c : ℚ) : ℚ :=
  match pyTruthy a with
  | some x => x
  | none => pyOr b c

/-- Round to the nearest integer, half up.  Models Python `round(x)`;
Python uses banker's rounding on binary floats, which coincides with this
away from exact `.5` ties (no concrete input below sits on a tie). -/
def pyRound (x : ℚ) : ℤ := (x + 1/2).floor

theorem pyRound_eq_floor (x : ℚ) : pyRound x = ⌊x + 1/2⌋ := by
  rw [pyRound, Rat.floor_def' (x + 1/2), Rat.floor_def]

/-- Models Python `round(x, 1)`. -/
def round10 (x : ℚ) : ℚ := (pyRound (10 * x) : ℚ) / 10

/-- Models Python `round(x, 2)`. -/
def round100 (x : ℚ) : ℚ := (pyRound (100 * x) : ℚ) / 100

/-- Models Python `round(x, 3)`. -/
def round1000 (x : ℚ) : ℚ := (pyRound (1000 * x) : ℚ) / 1000

/-- An optional numeric field that is either absent or nonnegative. -/
def optNonneg (o : Option ℚ) : Prop :=
  match o with
  | none => True
  | some x => 0 ≤ x

instance (o : Option ℚ) : Decidable (optNonneg o) := by
  unfold optNonneg
  exact match o with
  | none => inferInstanceAs (Decidable True)
  | some _ => inferInstanceAs (Decidable (_ ≤ _))

theorem pyRound_mono {x y : ℚ} (h : x ≤ y) : pyRound x ≤ pyRound y := by
  rw [pyRound_eq_floor, pyRound_eq_floor]
  exact Int.floor_le_floor (by linarith)

theorem round10_mono {x y : ℚ} (h : x ≤ y) : round10 x ≤ round10 y := by
  unfold round10
  have := pyRound_mono (show 10 * x ≤ 10 * y by linarith)
  have : ((pyRound (10 * x) : ℚ)) ≤ ((pyRound (10 * y) : ℚ)) := by exact_mod_cast this
  linarith

theorem pyOr_pos (a : Option ℚ) (b : ℚ) (ha : optNonneg a) (hb : 0 < b) :
    0 < pyOr a b := by
  unfold pyOr pyTruthy
  cases a with
  | none => simpa using hb
  | some x =>
    simp only
    by_cases hx : x = 0
    · simpa [hx] using hb
    · have : 0 ≤ x := ha
      simp only [hx, if_false]
      exact lt_of_le_of_ne this (Ne.symm hx)

theorem firstTruthy_pos (a b : Option ℚ) (c : ℚ)
    (ha : optNonneg a) (hb : optNonneg b) (hc : 0 < c) :
    0 < firstTruthy a b c := by
  unfold firstTruthy pyTruthy
  cases a with
  | none => simpa using pyOr_pos b c hb hc
  | some x =>
    simp only
    by_cases hx : x = 0
    · simpa [hx] using pyOr_pos b c hb hc
    · have : 0 ≤ x := ha
      simp only [hx, if_false]
      exact lt_of_le_of_ne this (Ne.symm hx)

namespace NBA

/-! NBA configuration constants, from `nba/nba_config.py`. -/

def HOME_COURT_ADVANTAGE : ℚ := 2.0

def ELITE_HOME_COURTS : List (String × ℚ) :=
  [("Denver Nuggets", 3.5), ("Utah Jazz", 3.0), ("Miami Heat", 2.5),
   ("Golden State Warriors", 2.5), ("Boston Celtics", 2.5),
   ("New York Knicks", 2.5), ("Philadelphia 76ers", 2.5),
   ("Milwaukee Bucks", 2.5), ("Phoenix Suns", 3.0), ("Memphis Grizzlies", 3.0),
   ("Oklahoma City Thunder", 3.0), ("Cleveland Cavaliers", 3.0)]

def AVG_PACE : ℚ := 100.2

def AVG_EFFICIENCY : ℚ := 114.6

def AVG_TOTAL : ℚ := 229.5

def SEASON_WEIGHT : ℚ := 0.40

def ROLLING_10_WEIGHT : ℚ := 0.35

def ROLLING_20_WEIGHT : ℚ := 0.25

def LOCATION_BLEND_WEIGHT : ℚ := 0.40

def LEAGUE_AVG_BENCH_SHARE : ℚ := 0.32

def DEPTH_FACTOR_MAX : ℚ := 0.30

def LINE_MOVEMENT_CONFIRMATION : ℚ := 0.5

def LINE_MOVEMENT_CAUTION : ℚ := 0.5

def LINE_MOVEMENT_CONFIRM_THRESHOLD : ℚ := 1.0

def LINE_MOVEMENT_CAUTION_THRESHOLD : ℚ := 1.5

def MULTIPLE_STARTERS_OUT : ℚ := -1.0

/-- `NBAAnalyzer.TOTAL_REGRESSION`. -/
def TOTAL_REGRESSION : ℚ := 0.15

/-- `NBAAnalyzer.EFFICIENCY_DEFLATOR`. -/
def EFFICIENCY_DEFLATOR : ℚ := 0.82

/-- `NBAAnalyzer.TEMPO_TOTAL_FACTOR`. -/
def TEMPO_TOTAL_FACTOR : ℚ := 0.5

/-- One injury-report entry (`injuries` list element of a team dict). -/
structure Injury where
  player : String
  status : String
  ppg : Option ℚ
  usage_rate : Option ℚ
  minutes : Option ℚ
  deriving DecidableEq, Repr

/-- The team-stats dict fields read by the NBA engine functions verified
here.  `Option` models an absent or `None` dict entry. -/
structure Team where
  adj_oe : Option ℚ
  adj_de : Option ℚ
  rolling_10_oe : Option ℚ
  rolling_10_de : Option ℚ
  rolling_20_oe : Option ℚ
  rolling_20_de : Option ℚ
  home_oe : Option ℚ
  home_de : Option ℚ
  away_oe : Option ℚ
  away_de : Option ℚ
  adj_tempo : Option ℚ
  rolling_10_pace : Option ℚ
  rolling_20_pace : Option ℚ
  injuries : List Injury
  bench_ppg : Option ℚ
  starters_ppg : Option ℚ
  deriving DecidableEq, Repr

/-- The team dict with every optional field absent and no injuries. -/
def emptyTeam : Team :=
  ⟨none, none, none, none, none, none, none, none, none, none, none, none,
   none, [], none, none⟩

/-- The `base_key` argument of `_blend_efficiency`: `adj_oe` or `adj_de`. -/
inductive StatKey | oe | de
  deriving DecidableEq, Repr

/-- The `location` argument of `_blend_efficiency`: `home` or `away`. -/
inductive Loc | home | away
  deriving DecidableEq, Repr

/-- Dict read of `base_key` (`adj_oe` / `adj_de`). -/
def Team.seasonStat (t : Team) : StatKey → Option ℚ
  | .oe => t.adj_oe
  | .de => t.adj_de

/-- Dict read of `base_key.replace("adj_", "rolling_10_")`. -/
def Team.rolling10Stat (t : Team) : StatKey → Option ℚ
  | .oe => t.rolling_10_oe
  | .de => t.rolling_10_de

/-- Dict read of `base_key.replace("adj_", "rolling_20_")`. -/
def Team.rolling20Stat (t : Team) : StatKey → Option ℚ
  | .oe => t.rolling_20_oe
  | .de => t.rolling_20_de

/-- Dict read of the location-split key `home_oe` / `home_de` / `away_oe` /
`away_de` (`f"{location}_{base_key.split('_')[-1]}"`). -/
def Team.locStat (t : Team) : Loc → StatKey → Option ℚ
  | .home, .oe => t.home_oe
  | .home, .de => t.home_de
  | .away, .oe => t.away_oe
  | .away, .de => t.away_de

/-- `NBAAnalyzer._blend_efficiency` (nba_analyzer.py lines 104-144):
season + rolling + location blend of one efficiency rating. -/
def blend_efficiency (t : Team) (base_key : StatKey) (location : Loc)
    (avg : ℚ) : ℚ :=
  -- season_val = team_data.get(base_key, avg); if None: avg
  let season_val := (t.seasonStat base_key).getD avg
  let r10 := t.rolling10Stat base_key
  let r20 := t.rolling20Stat base_key
  let blended :=
    match r10, r20 with
    | some a, some b =>
        season_val * SEASON_WEIGHT + a * ROLLING_10_WEIGHT + b * ROLLING_20_WEIGHT
    | some a, none => season_val * 0.55 + a * 0.45
    | none, some b => season_val * 0.60 + b * 0.40
    | none, none => season_val
  match t.locStat location base_key with
  | some loc_val => blended * (1 - LOCATION_BLEND_WEIGHT) + loc_val * LOCATION_BLEND_WEIGHT
  | none => blended

/-- Blended net rating (blended offence minus blended defence) of a team in
a given location context. -/
def net (t : Team) (location : Loc) : ℚ :=
  blend_efficiency t .oe location AVG_EFFICIENCY -
    blend_efficiency t .de location AVG_EFFICIENCY

/-- `get_home_court_advantage` (nba_analyzer.py lines 63-66). -/
def get_home_court_advantage (home_team : String) (neutral : Bool) : ℚ :=
  if neutral then 0
  else ((ELITE_HOME_COURTS.lookup home_team).getD HOME_COURT_ADVANTAGE)

/-- The rolling-pace blend applied to each team's tempo inside
`calculate_expected_score` (nba_analyzer.py lines 166-181). -/
def blend_pace (t : Team) (base_tempo : ℚ) : ℚ :=
  match t.rolling_10_pace, t.rolling_20_pace with
  | some a, some b =>
      base_tempo * SEASON_WEIGHT + a * ROLLING_10_WEIGHT + b * ROLLING_20_WEIGHT
  | some a, none => base_tempo * 0.55 + a * 0.45
  | _, _ => base_tempo

/-- Unrounded intermediate values of `calculate_expected_score`. -/
structure ExpectedCore where
  away_score : ℚ
  home_score : ℚ
  predicted_spread : ℚ
  predicted_total : ℚ
  expected_tempo : ℚ
  away_ppp : ℚ
  home_ppp : ℚ
  hca : ℚ
  deriving DecidableEq, Repr

/-- Body of `NBAAnalyzer.calculate_expected_score` (nba_analyzer.py lines
149-215) before the final `round(..., 1)` calls. -/
def expected_core (away home : Team) (home_name : String) (neutral : Bool) :
    ExpectedCore :=
  let away_oe := blend_efficiency away .oe .away AVG_EFFICIENCY
  let away_de := blend_efficiency away .de .away AVG_EFFICIENCY
  let home_oe := blend_efficiency home .oe .home AVG_EFFICIENCY
  let home_de := blend_efficiency home .de .home AVG_EFFICIENCY
  -- away.get("adj_tempo", AVG_PACE) or AVG_PACE
  let away_tempo0 := pyOr away.adj_tempo AVG_PACE
  let home_tempo0 := pyOr home.adj_tempo AVG_PACE
  let away_tempo := blend_pace away away_tempo0
  let home_tempo := blend_pace home home_tempo0
  let expected_tempo := ((away_tempo + home_tempo) / 2) * 0.9 + AVG_PACE * 0.1
  let d := EFFICIENCY_DEFLATOR
  let away_oe_r := away_oe * d + AVG_EFFICIENCY * (1 - d)
  let away_de_r := away_de * d + AVG_EFFICIENCY * (1 - d)
  let home_oe_r := home_oe * d + AVG_EFFICIENCY * (1 - d)
  let home_de_r := home_de * d + AVG_EFFICIENCY * (1 - d)
  let away_ppp := away_oe_r + (home_de_r - AVG_EFFICIENCY)
  let home_ppp := home_oe_r + (away_de_r - AVG_EFFICIENCY)
  let away_score0 := away_ppp * expected_tempo / 100
  let home_score0 := home_ppp * expected_tempo / 100
  let hca := get_home_court_advantage home_name neutral
  let home_score := home_score0 + hca / 2
  let away_score := away_score0 - hca / 2
  -- Predicted spread (away - home)
  let predicted_spread := away_score - home_score
  let raw_total := away_score + home_score
  let tempo_dev := expected_tempo - AVG_PACE
  let tempo_adj := tempo_dev * TEMPO_TOTAL_FACTOR * 2
  let regressed_total := raw_total * (1 - TOTAL_REGRESSION) + AVG_TOTAL * TOTAL_REGRESSION
  let predicted_total := regressed_total + tempo_adj
  ⟨away_score, home_score, predicted_spread, predicted_total, expected_tempo,
   away_ppp, home_ppp, hca⟩

/-- The dict returned by `NBAAnalyzer.calculate_expected_score`
(nba_analyzer.py lines 217-226): the core values rounded to one decimal. -/
def calculate_expected_score (away home : Team) (home_name : String)
    (neutral : Bool) : ExpectedCore :=
  let c := expected_core away home home_name neutral
  ⟨round10 c.away_score, round10 c.home_score, round10 c.predicted_spread,
   round10 c.predicted_total, round10 c.expected_tempo, round10 c.away_ppp,
   round10 c.home_ppp, round10 c.hca⟩

end NBA

namespace NBA

/-- Status-to-probability factor in `calculate_injury_impact`
(nba_analyzer.py lines 330-340); `none` models the loop's `continue` for an
unrecognised status. -/
def status_factor (status : String) : Option ℚ :=
  if status = "Out" then some 1.0
  else if status = "Doubtful" then some 0.8
  else if status = "Questionable" then some 0.4
  else if status = "Probable" then some 0.1
  else none

/-- Tier selection in `calculate_injury_impact` (nba_analyzer.py lines
342-352): walk from `superstar` down, pick the first tier whose `ppg_min`
and `usage_min` are both met; the fallback initial value is the `bench`
impact.  Impacts are the `INJURY_TIERS` entries of nba_config.py. -/
def injury_tier_impact (ppg usage : ℚ) : ℚ :=
  if 26 ≤ ppg ∧ 0.30 ≤ usage then -3.5
  else if 20 ≤ ppg ∧ 0.25 ≤ usage then -2.5
  else if 15 ≤ ppg ∧ 0.20 ≤ usage then -1.5
  else if 10 ≤ ppg ∧ 0.15 ≤ usage then -0.75
  else if 5 ≤ ppg ∧ 0.10 ≤ usage then -0.4
  else if 0 ≤ ppg ∧ 0 ≤ usage then -0.1
  else -0.1

/-- One iteration of the injury loop (nba_analyzer.py lines 323-364),
carrying `(total_impact, starters_out)`. -/
def injury_step (st : ℚ × ℕ) (inj : Injury) : ℚ × ℕ :=
  let ppg := pyOr inj.ppg 0
  let usage := pyOr inj.usage_rate 0.10
  let minutes := pyOr inj.minutes 0
  match status_factor inj.status with
  | none => st
  | some f =>
    let impact := injury_tier_impact ppg usage
    let adjusted_impact := impact * f
    if adjusted_impact ≠ 0 ∧ (5 ≤ ppg ∨ 15 ≤ minutes) then
      (st.1 + adjusted_impact, if 10 ≤ ppg then st.2 + 1 else st.2)
    else st

/-- The depth-aware stage of `calculate_injury_impact` (nba_analyzer.py
lines 374-385): teams with a deep bench (truthy `bench_ppg` and
`starters_ppg`) absorb up to `DEPTH_FACTOR_MAX` of a negative total. -/
def depth_adjust (t : Team) (total : ℚ) : ℚ :=
  match pyTruthy t.bench_ppg, pyTruthy t.starters_ppg with
  | some b, some s =>
    if 0 < b + s then
      let depth_share := b / (b + s)
      let depth_advantage := max 0 (depth_share - LEAGUE_AVG_BENCH_SHARE)
      let reduction := min (depth_advantage / LEAGUE_AVG_BENCH_SHARE) 1 * DEPTH_FACTOR_MAX
      if 0 < reduction ∧ total < 0 then total * (1 - reduction) else total
    else total
  | _, _ => total

/-- `NBAAnalyzer.calculate_injury_impact` (nba_analyzer.py lines 312-390),
returning the rounded per-team point impact (the `details` list is
reporting only and is not modelled). -/
def calculate_injury_impact (t : Team) : ℚ :=
  if t.injuries = [] then 0
  else
    let st := t.injuries.foldl injury_step (0, 0)
    let starters_out := st.2
    -- Additional penalty for multiple starters out
    let total1 :=
      if 2 ≤ starters_out then
        st.1 + (if 3 ≤ starters_out then MULTIPLE_STARTERS_OUT * 1.25
                else MULTIPLE_STARTERS_OUT)
      else st.1
    -- Depth-aware adjustment (bench_ppg / starters_ppg truthiness)
    let total2 := depth_adjust t total1
    -- Cap total injury impact at -6
    round10 (max total2 (-6.0))

/-- Star rating from `STAR_THRESHOLDS` (nba_config.py line 62), as looped
over in descending order in `calculate_spread_value` /
`calculate_total_value`. -/
def star_rating (abs_edge : ℚ) : ℕ :=
  if 5.0 ≤ abs_edge then 5
  else if 4.0 ≤ abs_edge then 4
  else if 3.0 ≤ abs_edge then 3
  else if 2.0 ≤ abs_edge then 2
  else if 1.5 ≤ abs_edge then 1
  else 0

/-- `NBAAnalyzer.grade_pick` (nba_analyzer.py lines 89-99). -/
def grade_pick (hit_pct : ℚ) : String :=
  if 70 ≤ hit_pct then "A+"
  else if 65 ≤ hit_pct then "A"
  else if 62 ≤ hit_pct then "A-"
  else if 59 ≤ hit_pct then "B+"
  else if 56 ≤ hit_pct then "B"
  else if 54 ≤ hit_pct then "B-"
  else if 52 ≤ hit_pct then "C+"
  else if 50 ≤ hit_pct then "C"
  else "D"

/-- Result dict of `NBAAnalyzer.calculate_spread_value`. -/
structure SpreadValue where
  pick_team : String
  value_points : ℚ
  confidence_stars : ℕ
  final_predicted : ℚ
  actual_spread : Option ℚ
  hit_pct : ℚ
  grade : String
  deriving DecidableEq, Repr

/-- `NBAAnalyzer.calculate_spread_value` (nba_analyzer.py lines 699-736).
`cdf` abstracts `scipy.stats.norm.cdf`; `SPREAD_STD_DEV = 10.5`. -/
def calculate_spread_value (cdf : ℚ → ℚ) (predicted_spread : ℚ)
    (actual_spread : Option ℚ) : SpreadValue :=
  match actual_spread with
  | none => ⟨"NO_LINE", 0, 0, 0, none, 0, ""⟩
  | some actual =>
    let edge := predicted_spread + actual
    let abs_edge := |edge|
    let pick_team :=
      if 1.0 < edge then "AWAY"
      else if edge < -1.0 then "HOME"
      else "PASS"
    let stars := star_rating abs_edge
    let hit_pct := round10 (cdf (abs_edge / 10.5) * 100)
    ⟨pick_team, round10 edge, stars, round10 predicted_spread, some actual,
     hit_pct, grade_pick hit_pct⟩

/-- Result dict of `NBAAnalyzer.calculate_total_value`. -/
structure TotalValue where
  pick : String
  value_points : ℚ
  confidence_stars : ℕ
  predicted_total : ℚ
  actual_total : Option ℚ
  deriving DecidableEq, Repr

/-- `NBAAnalyzer.calculate_total_value` (nba_analyzer.py lines 738-765). -/
def calculate_total_value (predicted_total : ℚ) (actual_total : Option ℚ) :
    TotalValue :=
  match actual_total with
  | none => ⟨"NO_LINE", 0, 0, 0, none⟩
  | some actual =>
    let edge := predicted_total - actual
    let abs_edge := |edge|
    let pick :=
      if 4.0 < edge then "OVER"
      else if edge < -4.0 then "UNDER"
      else "PASS"
    ⟨pick, round10 edge, star_rating abs_edge, round10 predicted_total,
     some actual⟩

/-- Result dict of `NBAAnalyzer.calculate_moneyline_value`; `ml_pick` is
initialised to Python `None` and only ever set to `AWAY_ML` / `HOME_ML`. -/
structure MoneylineValue where
  ml_pick : Option String
  ml_value : ℚ
  ml_stars : ℕ
  away_ml : Option ℚ
  home_ml : Option ℚ
  deriving DecidableEq, Repr

/-- American odds to implied probability (`implied_prob` inside
`calculate_moneyline_value`, nba_analyzer.py lines 779-782). -/
def implied_prob (odds : ℚ) : ℚ :=
  if odds < 0 then |odds| / (|odds| + 100) else 100 / (odds + 100)

/-- `NBAAnalyzer.calculate_moneyline_value` (nba_analyzer.py lines
767-808).  `cdf` abstracts `scipy.stats.norm.cdf`; `spread_to_win_prob`
(lines 85-87) is `cdf (spread / 10.5)`.  The `hit_pct` / `grade` /
`winner_*` fields are reporting only and not modelled. -/
def calculate_moneyline_value (cdf : ℚ → ℚ) (predicted_spread : ℚ)
    (away_ml home_ml : Option ℚ) : MoneylineValue :=
  match away_ml, home_ml with
  | some a, some h =>
    let model_away_prob := cdf (predicted_spread / 10.5)
    let model_home_prob := 1 - model_away_prob
    let away_edge := model_away_prob - implied_prob a
    let home_edge := model_home_prob - implied_prob h
    if away_edge > home_edge ∧ away_edge > 0.06 then
      ⟨some "AWAY_ML", round10 (away_edge * 100),
       min 5 (max 1 (away_edge * 25).floor.toNat), some a, some h⟩
    else if home_edge > 0.06 then
      ⟨some "HOME_ML", round10 (home_edge * 100),
       min 5 (max 1 (home_edge * 25).floor.toNat), some a, some h⟩
    else ⟨none, 0, 0, some a, some h⟩
  | a, h => ⟨none, 0, 0, a, h⟩

/-- The spread-adjustment section of `NBAAnalyzer.analyze_game`
(nba_analyzer.py lines 836-871): situational cap at plus-minus 12, Four
Factors fine-tune, defensive-matchup fine-tune, cap at plus-minus 16, then
the line-movement adjustment.  Arguments are the upstream stage outputs:
`predicted_spread` from `calculate_expected_score`, `sit_total` the
situational `total_adjustment`, `ff_edge` the Four Factors `total_edge`
(absent when `calculate_four_factors_edge` returned `None`), `def_signal`
the defensive-matchup `signal`, `spread_movement` from the game's
`line_movement` dict, and the market `actual_spread`. -/
def adjusted_spread (predicted_spread sit_total : ℚ) (ff_edge : Option ℚ)
    (def_signal : Option ℚ) (spread_movement : ℚ)
    (actual_spread : Option ℚ) : ℚ :=
  let sit_adj := max (-12.0) (min 12.0 sit_total)
  let s1 := predicted_spread + sit_adj
  let s2 :=
    match ff_edge with
    | some e => s1 + e * 0.15
    | none => s1
  let s3 :=
    match def_signal with
    | some sg => if sg ≠ 0 then s2 + sg else s2
    | none => s2
  let s4 := max (-16.0) (min 16.0 s3)
  -- Line movement signal (spread_movement truthy and line present)
  let lm_adj :=
    if spread_movement ≠ 0 ∧ actual_spread.isSome then
      let model_pick_away := 0 < s4
      let line_moving_away := 0 < spread_movement
      if model_pick_away = line_moving_away ∧
          LINE_MOVEMENT_CONFIRM_THRESHOLD ≤ |spread_movement| then
        if model_pick_away then LINE_MOVEMENT_CONFIRMATION
        else -LINE_MOVEMENT_CONFIRMATION
      else if model_pick_away ≠ line_moving_away ∧
          LINE_MOVEMENT_CAUTION_THRESHOLD ≤ |spread_movement| then
        if model_pick_away then -LINE_MOVEMENT_CAUTION
        else LINE_MOVEMENT_CAUTION
      else 0
    else 0
  s4 + lm_adj

end NBA

namespace NCAA

/-! NCAA configuration (config.py) and `NCAAAnalyzer` class constants
(analyze_games.py lines 35-62). -/

def HOME_COURT_ADVANTAGE : ℚ := 3.75

def ELITE_HOME_COURTS : List (String × ℚ) :=
  [("Duke", 6.0), ("Kansas", 5.5), ("Kentucky", 5.0), ("North Carolina", 5.0),
   ("Indiana", 5.0), ("Syracuse", 5.0), ("Michigan State", 4.5),
   ("Gonzaga", 4.5), ("Louisville", 4.5), ("Arizona", 4.5)]

def AVG_TEMPO : ℚ := 67.5

def AVG_EFFICIENCY : ℚ := 100.0

def AVG_TOTAL : ℚ := 143.5

def EFFICIENCY_DEFLATOR : ℚ := 0.70

def TEMPO_TOTAL_FACTOR : ℚ := 0.4

def MIN_ADJEM_TO_BET : ℚ := -5.0

def MAX_SPREAD_THRESHOLD : ℚ := 22.0

def LARGE_SPREAD_THRESHOLD : ℚ := 15.0

def LARGE_SPREAD_EXTRA_EDGE : ℚ := 2.0

def WEAK_CONFERENCES : List String :=
  ["SWAC", "MEAC", "Southland", "Big South", "A-Sun", "WAC", "Summit"]

def MID_MAJOR_CONFERENCES : List String :=
  ["Southern", "Big Sky", "Horizon", "CAA", "Sun Belt", "MAC", "OVC", "MVC"]

/-- One injury-report entry of the NCAA engine (`injuries` list element:
`player`, `status`, `ppg`, `position`). -/
structure Injury where
  player : String
  status : String
  ppg : Option ℚ
  position : String
  deriving DecidableEq, Repr

/-- The team-stats dict fields read by the NCAA engine functions verified
here.  `Option` models an absent or `None` entry; `conference` models
`get('conference', '')`. -/
structure Team where
  adj_oe : Option ℚ
  adj_de : Option ℚ
  sr_off_rtg : Option ℚ
  sr_def_rtg : Option ℚ
  pts_allowed_per_game : Option ℚ
  adj_tempo : Option ℚ
  sr_pace : Option ℚ
  conference : String
  adj_em : Option ℚ
  injuries : List Injury
  deriving DecidableEq, Repr

/-- A team dict carrying no numeric statistics at all. -/
def emptyTeam : Team :=
  ⟨none, none, none, none, none, none, none, "", none, []⟩

/-- A team dict whose efficiency and tempo entries hold exactly the league
averages (used to state the fallback-to-league-average property). -/
def avgTeam : Team :=
  ⟨some AVG_EFFICIENCY, some AVG_EFFICIENCY, none, none, none,
   some AVG_TEMPO, none, "", none, []⟩

/-- `get_home_court_advantage` (analyze_games.py lines 155-159). -/
def get_home_court_advantage (home_team : String) (neutral : Bool) : ℚ :=
  if neutral then 0
  else ((ELITE_HOME_COURTS.lookup home_team).getD HOME_COURT_ADVANTAGE)

/-- `get_conference_regression_factor` (analyze_games.py lines 217-245). -/
def get_conference_regression_factor (conf1 conf2 : String) : ℚ :=
  let both_weak := conf1 ∈ WEAK_CONFERENCES ∧ conf2 ∈ WEAK_CONFERENCES
  let one_weak := conf1 ∈ WEAK_CONFERENCES ∨ conf2 ∈ WEAK_CONFERENCES
  let both_mid := conf1 ∈ MID_MAJOR_CONFERENCES ∧ conf2 ∈ MID_MAJOR_CONFERENCES
  let power_5 := ["SEC", "Big Ten", "Big 12", "ACC", "Pac-12", "Big East"]
  let both_power5 := conf1 ∈ power_5 ∧ conf2 ∈ power_5
  let one_power5 := conf1 ∈ power_5 ∨ conf2 ∈ power_5
  if both_weak then 0.80
  else if one_weak then 0.75
  else if both_mid then 0.70
  else if both_power5 then 0.55
  else if one_power5 then 0.60
  else 0.65

/-- Offensive rating actually used for a team in
`calculate_expected_score`: `adj_oe or sr_off_rtg or AVG_EFFICIENCY`
(analyze_games.py line 269/271). -/
def eff_oe (t : Team) : ℚ := firstTruthy t.adj_oe t.sr_off_rtg AVG_EFFICIENCY

/-- Defensive rating used for a team, with the placeholder estimate: if
the fallback chain gives exactly `100.0` and `pts_allowed_per_game` is
truthy, re-estimate from points allowed per game (analyze_games.py lines
270-284). -/
def eff_de (t : Team) : ℚ :=
  let de := firstTruthy t.adj_de t.sr_def_rtg AVG_EFFICIENCY
  match pyTruthy t.pts_allowed_per_game with
  | some ppg_allowed =>
    if de = 100.0 then
      let tempo := pyOr t.adj_tempo AVG_TEMPO
      round10 ((ppg_allowed / tempo) * 100)
    else de
  | none => de

/-- Tempo used for a team: `adj_tempo or sr_pace or AVG_TEMPO`
(analyze_games.py lines 287-288). -/
def eff_tempo (t : Team) : ℚ := firstTruthy t.adj_tempo t.sr_pace AVG_TEMPO

/-- Effective net rating (offence minus defence) the projector works
from, after all fallbacks. -/
def net (t : Team) : ℚ := eff_oe t - eff_de t

/-- Unrounded intermediate values of the NCAA `calculate_expected_score`. -/
structure ExpectedCore where
  away_score : ℚ
  home_score : ℚ
  predicted_spread : ℚ
  predicted_total : ℚ
  raw_total : ℚ
  expected_tempo : ℚ
  tempo_total_adj : ℚ
  away_ppp : ℚ
  home_ppp : ℚ
  home_court_adj : ℚ
  away_adj_oe : ℚ
  away_adj_de : ℚ
  home_adj_oe : ℚ
  home_adj_de : ℚ
  away_tempo : ℚ
  home_tempo : ℚ
  deriving DecidableEq, Repr

/-- Body of `NCAAAnalyzer.calculate_expected_score` (analyze_games.py
lines 251-358) before the final rounding. -/
def expected_core (away home : Team) (home_name : String) (neutral : Bool) :
    ExpectedCore :=
  let away_adj_oe := eff_oe away
  let away_adj_de := eff_de away
  let home_adj_oe := eff_oe home
  let home_adj_de := eff_de home
  let away_tempo := eff_tempo away
  let home_tempo := eff_tempo home
  let raw_tempo := (away_tempo + home_tempo) / 2
  let expected_tempo := raw_tempo * 0.9 + AVG_TEMPO * 0.1
  -- Additive efficiency, then deflation toward the league average
  let away_ppp0 := away_adj_oe + (home_adj_de - AVG_EFFICIENCY)
  let home_ppp0 := home_adj_oe + (away_adj_de - AVG_EFFICIENCY)
  let away_ppp := AVG_EFFICIENCY + (away_ppp0 - AVG_EFFICIENCY) * EFFICIENCY_DEFLATOR
  let home_ppp := AVG_EFFICIENCY + (home_ppp0 - AVG_EFFICIENCY) * EFFICIENCY_DEFLATOR
  let away_score0 := away_ppp * expected_tempo / 100
  let home_score0 := home_ppp * expected_tempo / 100
  let adj_em_gap := |(away_adj_oe - away_adj_de) - (home_adj_oe - home_adj_de)|
  let base_hca := get_home_court_advantage home_name neutral
  let hca_scale : ℚ :=
    if 25 < adj_em_gap then 0.50
    else if 20 < adj_em_gap then 0.67
    else if 15 < adj_em_gap then 0.80
    else 1.0
  let hca := base_hca * hca_scale
  let home_score := home_score0 + hca / 2
  let away_score := away_score0 - hca / 2
  -- Predicted spread (from away's perspective: positive = underdog)
  let predicted_spread := home_score - away_score
  let raw_total := away_score + home_score
  let tempo_deviation := expected_tempo - AVG_TEMPO
  let tempo_total_adj := tempo_deviation * TEMPO_TOTAL_FACTOR * 2
  let regression_factor :=
    get_conference_regression_factor away.conference home.conference
  let regressed_total :=
    raw_total * (1 - regression_factor) + AVG_TOTAL * regression_factor
  let predicted_total := regressed_total + tempo_total_adj
  let total_scale := if 0 < raw_total then predicted_total / raw_total else 1.0
  let away_score_adj := away_score * total_scale
  let home_score_adj := home_score * total_scale
  ⟨away_score_adj, home_score_adj, predicted_spread, predicted_total,
   raw_total, expected_tempo, tempo_total_adj, away_ppp, home_ppp, hca,
   away_adj_oe, away_adj_de, home_adj_oe, home_adj_de, away_tempo, home_tempo⟩

/-- `NCAAAnalyzer.calculate_expected_score` (analyze_games.py lines
251-377).  The arguments are the `get_team_data` lookup results; `none`
models a falsy (empty) team dict, so the guard
`if not away and not home: return None` becomes the double-`none` case.
The returned dict rounds the core values as at lines 360-377. -/
def calculate_expected_score (away home : Option Team) (home_name : String)
    (neutral : Bool) : Option ExpectedCore :=
  match away, home with
  | none, none => none
  | a, h =>
    let c := expected_core (a.getD emptyTeam) (h.getD emptyTeam) home_name neutral
    some ⟨round10 c.away_score, round10 c.home_score,
      round10 c.predicted_spread, round10 c.predicted_total,
      round10 c.raw_total, round10 c.expected_tempo,
      round10 c.tempo_total_adj, round1000 c.away_ppp, round1000 c.home_ppp,
      c.home_court_adj, c.away_adj_oe, c.away_adj_de, c.home_adj_oe,
      c.home_adj_de, c.away_tempo, c.home_tempo⟩

end NCAA

namespace NCAA

/-- Result dict of `NCAAAnalyzer.calculate_spread_value`. -/
structure SpreadValue where
  pick_team : String
  confidence_stars : ℕ
  value_points : ℚ
  final_predicted : ℚ
  actual_spread : Option ℚ
  deriving DecidableEq, Repr

/-- `NCAAAnalyzer.calculate_spread_value` (analyze_games.py lines
788-842). -/
def calculate_spread_value (predicted_spread : ℚ)
    (actual_spread : Option ℚ) (four_factors_edge situational_adj : ℚ) :
    SpreadValue :=
  let final_predicted := predicted_spread + four_factors_edge + situational_adj
  match actual_spread with
  | none => ⟨"NO_LINE", 0, 0, round10 final_predicted, none⟩
  | some actual =>
    let value := actual - final_predicted
    let pick_team :=
      if 3.0 ≤ value then "AWAY"
      else if value ≤ -3.0 then "HOME"
      else "PASS"
    let abs_value := |value|
    let stars : ℕ :=
      if 6.0 ≤ abs_value then 5
      else if 5.0 ≤ abs_value then 4
      else if 4.0 ≤ abs_value then 3
      else if 3.5 ≤ abs_value then 2
      else if 3.0 ≤ abs_value then 1
      else 0
    ⟨pick_team, if pick_team ≠ "PASS" then stars else 0, round10 value,
     round10 final_predicted, some actual⟩

/-- Result dict of `NCAAAnalyzer.calculate_total_value`. -/
structure TotalValue where
  pick : String
  confidence_stars : ℕ
  value_points : ℚ
  predicted_total : ℚ
  actual_total : Option ℚ
  deriving DecidableEq, Repr

/-- `NCAAAnalyzer.calculate_total_value` (analyze_games.py lines
969-1017). -/
def calculate_total_value (predicted_total : ℚ) (actual_total : Option ℚ) :
    TotalValue :=
  match actual_total with
  | none => ⟨"NO_LINE", 0, 0, 0, none⟩
  | some actual =>
    let value := predicted_total - actual
    let pick :=
      if 8.0 ≤ value then "OVER"
      else if value ≤ -8.0 then "UNDER"
      else "PASS"
    let abs_value := |value|
    let stars : ℕ :=
      if 12.0 ≤ abs_value then 5
      else if 10.0 ≤ abs_value then 4
      else if 9.0 ≤ abs_value then 3
      else if 8.0 ≤ abs_value then 2
      else 0
    ⟨pick, if pick ≠ "PASS" then stars else 0, round10 value,
     round10 predicted_total, some actual⟩

/-- One side's moneyline quote inside `odds['best_odds']`. -/
structure MLQuote where
  price : Option ℚ
  book : String
  deriving DecidableEq, Repr

/-- The `best_odds` dict; `none` fields model falsy `best.get('away_ml')`
lookups. -/
structure BestOdds where
  away_ml : Option MLQuote
  home_ml : Option MLQuote
  deriving DecidableEq, Repr

/-- The game `odds` dict as read by `calculate_moneyline_value`; `none`
for `best_odds` models a falsy `odds.get('best_odds')`. -/
structure Odds where
  best_odds : Option BestOdds
  deriving DecidableEq, Repr

/-- Result dict of `NCAAAnalyzer.calculate_moneyline_value` (the fields
the claims and the report read). -/
structure MoneylineValue where
  ml_pick : String
  ml_value : ℚ
  ml_stars : ℕ
  deriving DecidableEq, Repr

/-- `ml_to_implied_prob` (analyze_games.py lines 860-865). -/
def ml_to_implied_prob (ml : ℚ) : ℚ :=
  if 0 < ml then 100 / (ml + 100) else |ml| / (|ml| + 100)

/-- `NCAAAnalyzer.calculate_moneyline_value` (analyze_games.py lines
844-967).  `winProb` abstracts the `spread_to_win_prob` closure (a normal
CDF via `math.erf`, std dev 11.0).  The odds argument is falsy (`none`)
when the odds dict is missing or empty. -/
def calculate_moneyline_value (winProb : ℚ → ℚ) (predicted_spread : ℚ)
    (odds : Option Odds) : MoneylineValue :=
  match odds with
  | none => ⟨"NO_LINE", 0, 0⟩
  | some o =>
    match o.best_odds with
    | none => ⟨"NO_LINE", 0, 0⟩
    | some best =>
      let away_ml := best.away_ml.bind (fun q => q.price)
      let home_ml := best.home_ml.bind (fun q => q.price)
      match away_ml, home_ml with
      | some a, some h =>
        let away_implied := ml_to_implied_prob a
        let home_implied := ml_to_implied_prob h
        let away_model_prob := winProb predicted_spread
        let home_model_prob := 1 - away_model_prob
        let away_edge := away_model_prob - away_implied
        let home_edge := home_model_prob - home_implied
        let away_is_underdog := 0 < a
        let home_is_underdog := 0 < h
        let away_threshold : ℚ := if away_is_underdog then 0.12 else 0.08
        let home_threshold : ℚ := if home_is_underdog then 0.12 else 0.08
        let (ml_pick, ml_value) :=
          if away_threshold ≤ away_edge then ("AWAY_ML", away_edge * 100)
          else if home_threshold ≤ home_edge then ("HOME_ML", home_edge * 100)
          else ("PASS", 0)
        let is_underdog_pick :=
          (ml_pick = "AWAY_ML" ∧ away_is_underdog) ∨
          (ml_pick = "HOME_ML" ∧ home_is_underdog)
        let ml_stars : ℕ :=
          if is_underdog_pick then
            if 25 ≤ ml_value then 5
            else if 20 ≤ ml_value then 4
            else if 16 ≤ ml_value then 3
            else if 14 ≤ ml_value then 2
            else if 12 ≤ ml_value then 1
            else 0
          else
            if 18 ≤ ml_value then 5
            else if 14 ≤ ml_value then 4
            else if 11 ≤ ml_value then 3
            else if 9 ≤ ml_value then 2
            else if 8 ≤ ml_value then 1
            else 0
        ⟨ml_pick, round10 ml_value, ml_stars⟩
      | _, _ => ⟨"NO_LINE", 0, 0⟩

/-- The inner `calculate_injury_impact` of
`calculate_situational_adjustments` (analyze_games.py lines 587-614):
per-player point impact (the `team_ppg` parameter is unused in the
source body). -/
def calculate_injury_impact (inj : Injury) : ℚ :=
  if inj.status ≠ "Out" ∧ inj.status ≠ "Doubtful" then 0
  else
    let player_ppg := inj.ppg.getD 0
    let position := inj.position
    let base_adj : ℚ :=
      if 15 ≤ player_ppg then -4.0
      else if 10 ≤ player_ppg then -2.5
      else if 5 ≤ player_ppg then -1.5
      else if position.toList.contains 'G' then -2.5
      else if position.toList.contains 'F' ∨ position.toList.contains 'C' then -2.0
      else -1.5
    if position.toList.tails.any (fun t => "PG".toList.isPrefixOf t) ∨
        position = "G" then
      base_adj * 1.2
    else base_adj

/-- The per-team aggregated injury adjustment the NCAA situational
adjuster adds for one side (analyze_games.py lines 619-631): the loop adds
each nonzero per-player impact to the running total, which equals the
plain sum of impacts.  No cap is applied to this sum anywhere. -/
def team_injury_total (injuries : List Injury) : ℚ :=
  (injuries.map calculate_injury_impact).sum

end NCAA

namespace NCAA

/-- Quality flags of `assess_team_quality` read by the report's spread
filter (analyze_games.py lines 1428-1432). -/
structure Quality where
  win_pct : ℚ
  is_very_bad : Bool
  is_losing_team : Bool
  is_weak_conference : Bool
  deriving DecidableEq, Repr

/-- The fields of the per-game dict returned by `NCAAAnalyzer.analyze_game`
(analyze_games.py lines 1140-1165) that the report's spread-pick section
reads.  Note the returned dict has keys `away_data` / `home_data` /
`away_quality` / `home_quality` but no key `away` or `home`. -/
structure Analysis where
  spread_value : SpreadValue
  away_quality : Quality
  home_quality : Quality
  away_data : Team
  home_data : Team
  deriving DecidableEq, Repr

/-- `pick_adjem` as computed by the report (analyze_games.py lines
1396-1399): `analysis.get('away' ... else 'home', {}).get('adj_em', 0)`.
Since `analyze_game` returns no `away` or `home` key (its team data lives
under `away_data` / `home_data`), the outer lookup always yields the empty
dict, the inner one its default `0`, and the `None` guard leaves it `0` —
for every analysis, whatever `adj_em` the teams actually have. -/
def report_pick_adjem (_a : Analysis) : ℚ := 0

/-- Outcome of the report's spread-pick filter for one analysed game. -/
inductive SpreadPickDecision where
  | avoid_low_adjem
  | avoid_max_spread
  | avoid_large_spread
  | avoid_very_bad
  | picked (stars : ℕ)
  | not_picked
  deriving DecidableEq, Repr

/-- The spread-pick section of `NCAAAnalyzer.generate_report`
(analyze_games.py lines 1383-1474): quality and risk filters routing a
candidate spread pick either into `spread_picks` (`picked`, carrying the
possibly downgraded star count), into `avoid_games` (the `avoid_*`
outcomes, in source order), or silently dropping it (`not_picked`, for
picks below 3 adjusted stars or without a graded side). -/
def report_spread_pick_decision (a : Analysis) : SpreadPickDecision :=
  let sv := a.spread_value
  if sv.pick_team = "PASS" ∨ sv.pick_team = "NO_LINE" then .not_picked
  else
    let spread := if sv.pick_team = "AWAY" then sv.actual_spread.getD 0
                  else -(sv.actual_spread.getD 0)
    let edge := |sv.value_points|
    let stars := sv.confidence_stars
    let pick_adjem := report_pick_adjem a
    if pick_adjem < MIN_ADJEM_TO_BET then .avoid_low_adjem
    else if MAX_SPREAD_THRESHOLD < |spread| then .avoid_max_spread
    else if LARGE_SPREAD_THRESHOLD < |spread| ∧
        edge < 3.0 + LARGE_SPREAD_EXTRA_EDGE then .avoid_large_spread
    else
      let pick_quality := if sv.pick_team = "AWAY" then a.away_quality
                          else a.home_quality
      if pick_quality.is_very_bad then .avoid_very_bad
      else
        let adjusted_stars :=
          if pick_quality.is_losing_team ∧ pick_quality.is_weak_conference then
            max 1 (stars - 2)
          else if pick_quality.is_losing_team then max 1 (stars - 1)
          else if pick_quality.is_weak_conference ∧ pick_quality.win_pct < 0.45 then
            max 1 (stars - 1)
          else stars
        if 3 ≤ adjusted_stars then .picked adjusted_stars else .not_picked

end NCAA

/-- Modelled from the spec: proportional redistribution of the blend
weights when the 20-game rolling value is absent — season and 10-game
weights become `0.40/0.75` and `0.35/0.75` (the spec's stated behaviour,
for comparison against `NBA.blend_efficiency`). -/
def proportionalBlendNoR20 (season_val r10 : ℚ) : ℚ :=
  season_val * (NBA.SEASON_WEIGHT / (NBA.SEASON_WEIGHT + NBA.ROLLING_10_WEIGHT)) +
    r10 * (NBA.ROLLING_10_WEIGHT / (NBA.SEASON_WEIGHT + NBA.ROLLING_10_WEIGHT))

/-- A concrete stand-in for the abstract normal-CDF argument; the claims
settled with it never evaluate it. -/
def constCdf : ℚ → ℚ := fun _ => 1/2

/-! Concrete inputs used by the claim theorems. -/

/-- Scenario-A team for the NCAA engine: 100/100 ratings, pace 70. -/
def ncaaScenarioATeam : NCAA.Team :=
  ⟨some 100, some 100, none, none, none, some 70, none, "", none, []⟩

/-- Scenario-A team for the NBA engine: 100/100 ratings, pace 70. -/
def nbaScenarioATeam : NBA.Team :=
  ⟨some 100, some 100, none, none, none, none, none, none, none, none,
   some 70, none, none, [], none, none⟩

/-- Claim C4 (corrected).  Counterexample to the claim as stated: with two
identical teams rated 100 offence/defence, pace 70, on a neutral site with
zero situational adjustments, the NCAA engine returns a projected total of
143.9, which differs from the configured league-average total 143.5 — the
total is the regression blend of the pace-derived raw total toward the
league average plus the tempo adjustment, not the league average itself. -/
theorem c4_counterexample :
    (NCAA.calculate_expected_score (some ncaaScenarioATeam)
        (some ncaaScenarioATeam) "Neutral Court" true).map
      (fun r => r.predicted_total) = some (1439/10) ∧
    (1439/10 : ℚ) ≠ NCAA.AVG_TOTAL := by
  constructor
  · simp +decide only [NCAA.calculate_expected_score, NCAA.expected_core,
      NCAA.eff_oe, NCAA.eff_de, NCAA.eff_tempo, NCAA.net,
      NCAA.get_home_court_advantage, NCAA.get_conference_regression_factor,
      NCAA.WEAK_CONFERENCES, NCAA.MID_MAJOR_CONFERENCES,
      NCAA.AVG_EFFICIENCY, NCAA.AVG_TEMPO, NCAA.AVG_TOTAL,
      NCAA.EFFICIENCY_DEFLATOR, NCAA.TEMPO_TOTAL_FACTOR,
      ncaaScenarioATeam, firstTruthy, pyTruthy, pyOr, Option.getD,
      round10, round1000, pyRound_eq_floor, Option.map]
    norm_num
  · norm_num [NCAA.AVG_TOTAL]

/-- Claim C4 (amended): in scenario A (identical 100/100 ratings, pace 70,
neutral site, zero adjustments) both engines project a spread of exactly
0.0, and the projected totals are the regression-formula values — 143.9
for the NCAA engine and 119.8 for the NBA engine — each different from its
configured league-average total. -/
theorem c4_scenario_a_amended :
    (NCAA.calculate_expected_score (some ncaaScenarioATeam)
        (some ncaaScenarioATeam) "Neutral Court" true).map
      (fun r => (r.predicted_spread, r.predicted_total)) =
      some (0, 1439/10) ∧
    (1439/10 : ℚ) ≠ NCAA.AVG_TOTAL ∧
    (NBA.calculate_expected_score nbaScenarioATeam nbaScenarioATeam
        "Neutral Court" true).predicted_spread = 0 ∧
    (NBA.calculate_expected_score nbaScenarioATeam nbaScenarioATeam
        "Neutral Court" true).predicted_total = 599/5 ∧
    (599/5 : ℚ) ≠ NBA.AVG_TOTAL := by
  refine ⟨?_, by norm_num [NCAA.AVG_TOTAL], ?_, ?_, by norm_num [NBA.AVG_TOTAL]⟩
  · simp +decide only [NCAA.calculate_expected_score, NCAA.expected_core,
      NCAA.eff_oe, NCAA.eff_de, NCAA.eff_tempo,
      NCAA.get_home_court_advantage, NCAA.get_conference_regression_factor,
      NCAA.WEAK_CONFERENCES, NCAA.MID_MAJOR_CONFERENCES,
      NCAA.AVG_EFFICIENCY, NCAA.AVG_TEMPO, NCAA.AVG_TOTAL,
      NCAA.EFFICIENCY_DEFLATOR, NCAA.TEMPO_TOTAL_FACTOR,
      ncaaScenarioATeam, firstTruthy, pyTruthy, pyOr, Option.getD,
      round10, round1000, pyRound_eq_floor, Option.map]
    norm_num
  · simp +decide only [NBA.calculate_expected_score, NBA.expected_core,
      NBA.blend_efficiency, NBA.blend_pace, NBA.Team.seasonStat,
      NBA.Team.rolling10Stat, NBA.Team.rolling20Stat, NBA.Team.locStat,
      NBA.get_home_court_advantage, NBA.AVG_EFFICIENCY, NBA.AVG_PACE,
      NBA.AVG_TOTAL, NBA.SEASON_WEIGHT, NBA.ROLLING_10_WEIGHT,
      NBA.ROLLING_20_WEIGHT, NBA.LOCATION_BLEND_WEIGHT,
      NBA.EFFICIENCY_DEFLATOR, NBA.TOTAL_REGRESSION, NBA.TEMPO_TOTAL_FACTOR,
      nbaScenarioATeam, pyOr, pyTruthy, Option.getD,
      round10, pyRound_eq_floor]
    norm_num
  · simp +decide only [NBA.calculate_expected_score, NBA.expected_core,
      NBA.blend_efficiency, NBA.blend_pace, NBA.Team.seasonStat,
      NBA.Team.rolling10Stat, NBA.Team.rolling20Stat, NBA.Team.locStat,
      NBA.get_home_court_advantage, NBA.AVG_EFFICIENCY, NBA.AVG_PACE,
      NBA.AVG_TOTAL, NBA.SEASON_WEIGHT, NBA.ROLLING_10_WEIGHT,
      NBA.ROLLING_20_WEIGHT, NBA.LOCATION_BLEND_WEIGHT,
      NBA.EFFICIENCY_DEFLATOR, NBA.TOTAL_REGRESSION, NBA.TEMPO_TOTAL_FACTOR,
      nbaScenarioATeam, pyOr, pyTruthy, Option.getD,
      round10, pyRound_eq_floor]
    norm_num

/-- Claim C7 (corrected).  Counterexample to the claim as stated: the NBA
total grader at a model-vs-market gap of 3 points returns pick `PASS`
together with a nonzero star count (3 stars), because it never zeroes the
star count on a pass. -/
theorem c7_counterexample :
    (NBA.calculate_total_value 103 (some 100)).pick = "PASS" ∧
    (NBA.calculate_total_value 103 (some 100)).confidence_stars = 3 := by
  constructor <;>
  · simp +decide only [NBA.calculate_total_value, NBA.star_rating,
      round10, pyRound_eq_floor]
    norm_num

/-- The NBA star table yields zero stars below its smallest threshold. -/
theorem star_rating_eq_zero {v : ℚ} (h : v < 1.5) : NBA.star_rating v = 0 := by
  unfold NBA.star_rating
  split_ifs with h1 h2 h3 h4 h5 <;> first | rfl | linarith

/-- Claim C7 (amended): every star band of the spread and total graders
has a closed lower bound — an absolute edge exactly at a star-threshold
boundary earns the higher tier's star count — and a PASS result carries
zero stars in the NCAA spread grader, the NCAA total grader and the NBA
spread grader; the NBA total grader, however, returns PASS together with
the star count of the raw edge (nonzero for absolute edges from 1.5 up to
its 4-point pick threshold), as witnessed by `c7_counterexample`. -/
theorem c7_star_bands_amended :
    (∀ p ff sit a : ℚ,
      (a - (p + ff + sit) = 6 →
        (NCAA.calculate_spread_value p (some a) ff sit).confidence_stars = 5) ∧
      (a - (p + ff + sit) = 5 →
        (NCAA.calculate_spread_value p (some a) ff sit).confidence_stars = 4) ∧
      (a - (p + ff + sit) = 4 →
        (NCAA.calculate_spread_value p (some a) ff sit).confidence_stars = 3) ∧
      (a - (p + ff + sit) = 3.5 →
        (NCAA.calculate_spread_value p (some a) ff sit).confidence_stars = 2) ∧
      (a - (p + ff + sit) = 3 →
        (NCAA.calculate_spread_value p (some a) ff sit).confidence_stars = 1) ∧
      ((NCAA.calculate_spread_value p (some a) ff sit).pick_team = "PASS" →
        (NCAA.calculate_spread_value p (some a) ff sit).confidence_stars = 0)) ∧
    (∀ pt a : ℚ,
      (pt - a = 12 → (NCAA.calculate_total_value pt (some a)).confidence_stars = 5) ∧
      (pt - a = 10 → (NCAA.calculate_total_value pt (some a)).confidence_stars = 4) ∧
      (pt - a = 9 → (NCAA.calculate_total_value pt (some a)).confidence_stars = 3) ∧
      (pt - a = 8 → (NCAA.calculate_total_value pt (some a)).confidence_stars = 2) ∧
      ((NCAA.calculate_total_value pt (some a)).pick = "PASS" →
        (NCAA.calculate_total_value pt (some a)).confidence_stars = 0)) ∧
    (∀ (cdf : ℚ → ℚ) (p a : ℚ),
      (p + a = 5 → (NBA.calculate_spread_value cdf p (some a)).confidence_stars = 5) ∧
      (p + a = 4 → (NBA.calculate_spread_value cdf p (some a)).confidence_stars = 4) ∧
      (p + a = 3 → (NBA.calculate_spread_value cdf p (some a)).confidence_stars = 3) ∧
      (p + a = 2 → (NBA.calculate_spread_value cdf p (some a)).confidence_stars = 2) ∧
      (p + a = 1.5 → (NBA.calculate_spread_value cdf p (some a)).confidence_stars = 1) ∧
      ((NBA.calculate_spread_value cdf p (some a)).pick_team = "PASS" →
        (NBA.calculate_spread_value cdf p (some a)).confidence_stars = 0)) ∧
    (∀ pt a : ℚ,
      (pt - a = 5 → (NBA.calculate_total_value pt (some a)).confidence_stars = 5) ∧
      (pt - a = 4 → (NBA.calculate_total_value pt (some a)).confidence_stars = 4) ∧
      (pt - a = 3 →
        (NBA.calculate_total_value pt (some a)).pick = "PASS" ∧
        (NBA.calculate_total_value pt (some a)).confidence_stars = 3)) := by
  refine ⟨fun p ff sit a => ?_, fun pt a => ?_, fun cdf p a => ?_, fun pt a => ?_⟩
  · refine ⟨fun h => ?_, fun h => ?_, fun h => ?_, fun h => ?_, fun h => ?_, fun h => ?_⟩
    · simp only [NCAA.calculate_spread_value]; rw [h]; norm_num [abs_of_nonneg] <;> decide
    · simp only [NCAA.calculate_spread_value]; rw [h]; norm_num [abs_of_nonneg] <;> decide
    · simp only [NCAA.calculate_spread_value]; rw [h]; norm_num [abs_of_nonneg] <;> decide
    · simp only [NCAA.calculate_spread_value]; rw [h]; norm_num [abs_of_nonneg] <;> decide
    · simp only [NCAA.calculate_spread_value]; rw [h]; norm_num [abs_of_nonneg] <;> decide
    · simp only [NCAA.calculate_spread_value] at h ⊢
      split_ifs at h ⊢ <;> simp_all
  · refine ⟨fun h => ?_, fun h => ?_, fun h => ?_, fun h => ?_, fun h => ?_⟩
    · simp only [NCAA.calculate_total_value]; rw [h]; norm_num [abs_of_nonneg] <;> decide
    · simp only [NCAA.calculate_total_value]; rw [h]; norm_num [abs_of_nonneg] <;> decide
    · simp only [NCAA.calculate_total_value]; rw [h]; norm_num [abs_of_nonneg] <;> decide
    · simp only [NCAA.calculate_total_value]; rw [h]; norm_num [abs_of_nonneg] <;> decide
    · simp only [NCAA.calculate_total_value] at h ⊢
      split_ifs at h ⊢ <;> simp_all
  · refine ⟨fun h => ?_, fun h => ?_, fun h => ?_, fun h => ?_, fun h => ?_, fun h => ?_⟩
    · simp only [NBA.calculate_spread_value, NBA.star_rating]; rw [h]; norm_num [abs_of_nonneg] <;> decide
    · simp only [NBA.calculate_spread_value, NBA.star_rating]; rw [h]; norm_num [abs_of_nonneg] <;> decide
    · simp only [NBA.calculate_spread_value, NBA.star_rating]; rw [h]; norm_num [abs_of_nonneg] <;> decide
    · simp only [NBA.calculate_spread_value, NBA.star_rating]; rw [h]; norm_num [abs_of_nonneg] <;> decide
    · simp only [NBA.calculate_spread_value, NBA.star_rating]; rw [h]; norm_num [abs_of_nonneg] <;> decide
    · simp only [NBA.calculate_spread_value] at h ⊢
      split_ifs at h with h1 h2
      · exact absurd h (by decide)
      · exact absurd h (by decide)
      · have hb : |p + a| ≤ 1 := abs_le.mpr ⟨by linarith, by linarith⟩
        exact star_rating_eq_zero (lt_of_le_of_lt hb (by norm_num))
  · refine ⟨fun h => ?_, fun h => ?_, fun h => ?_⟩
    · simp only [NBA.calculate_total_value, NBA.star_rating]; rw [h]; norm_num [abs_of_nonneg] <;> decide
    · simp only [NBA.calculate_total_value, NBA.star_rating]; rw [h]; norm_num [abs_of_nonneg] <;> decide
    · constructor
      · simp only [NBA.calculate_total_value]; rw [h]; norm_num [abs_of_nonneg] <;> decide
      · simp only [NBA.calculate_total_value, NBA.star_rating]; rw [h]; norm_num [abs_of_nonneg] <;> decide

/-- Witness for `c7_star_bands_amended` at concrete inputs. -/
theorem c7_star_bands_amended_witness :
    (NCAA.calculate_spread_value 0 (some 6) 0 0).confidence_stars = 5 ∧
    (NCAA.calculate_total_value 12 (some 0)).confidence_stars = 5 ∧
    (NBA.calculate_spread_value constCdf 5 (some 0)).confidence_stars = 5 ∧
    (NBA.calculate_total_value 3 (some 0)).pick = "PASS" ∧
    (NBA.calculate_total_value 3 (some 0)).confidence_stars = 3 :=
  ⟨(c7_star_bands_amended.1 0 0 0 6).1 (by norm_num),
   (c7_star_bands_amended.2.1 12 0).1 (by norm_num),
   (c7_star_bands_amended.2.2.1 constCdf 5 0).1 (by norm_num),
   ((c7_star_bands_amended.2.2.2 3 0).2.2 (by norm_num)).1,
   ((c7_star_bands_amended.2.2.2 3 0).2.2 (by norm_num)).2⟩

/-- Claim C8 (corrected).  Counterexample to the claim as stated: in the
NBA spread grader the pick condition is strict (`edge > 1.0`), so a spread
edge exactly equal to the engine's minimum pick threshold of 1.0 yields
PASS, not a pick. -/
theorem c8_counterexample :
    (NBA.calculate_spread_value constCdf 1 (some 0)).pick_team = "PASS" := by
  simp only [NBA.calculate_spread_value]
  norm_num

/-- Claim C8 (amended): in the NCAA spread grader the 3.0-point pick
threshold is closed — an edge of exactly 3.0 (or −3.0) yields a pick and
an edge one unit below yields PASS — while in the NBA spread grader the
1.0-point threshold is strict: an edge of exactly 1.0 yields PASS, one
unit below yields PASS, and only a strictly larger edge yields a pick. -/
theorem c8_pick_threshold_amended :
    (∀ p ff sit a : ℚ,
      (a - (p + ff + sit) = 3 →
        (NCAA.calculate_spread_value p (some a) ff sit).pick_team = "AWAY") ∧
      (a - (p + ff + sit) = -3 →
        (NCAA.calculate_spread_value p (some a) ff sit).pick_team = "HOME") ∧
      (a - (p + ff + sit) = 2 →
        (NCAA.calculate_spread_value p (some a) ff sit).pick_team = "PASS")) ∧
    (∀ (cdf : ℚ → ℚ) (p a : ℚ),
      (p + a = 1 → (NBA.calculate_spread_value cdf p (some a)).pick_team = "PASS") ∧
      (p + a = 0 → (NBA.calculate_spread_value cdf p (some a)).pick_team = "PASS") ∧
      (1 < p + a → (NBA.calculate_spread_value cdf p (some a)).pick_team = "AWAY")) := by
  refine ⟨fun p ff sit a => ⟨fun h => ?_, fun h => ?_, fun h => ?_⟩,
    fun cdf p a => ⟨fun h => ?_, fun h => ?_, fun h => ?_⟩⟩
  · simp only [NCAA.calculate_spread_value]; rw [h]; norm_num
  · simp only [NCAA.calculate_spread_value]; rw [h]; norm_num
  · simp only [NCAA.calculate_spread_value]; rw [h]; norm_num
  · simp only [NBA.calculate_spread_value]; rw [h]; norm_num
  · simp only [NBA.calculate_spread_value]; rw [h]; norm_num
  · simp only [NBA.calculate_spread_value]
    rw [if_pos (show (1.0 : ℚ) < p + a by norm_num; linarith)]

/-- Witness for `c8_pick_threshold_amended` at concrete inputs. -/
theorem c8_pick_threshold_amended_witness :
    (NCAA.calculate_spread_value 0 (some 3) 0 0).pick_team = "AWAY" ∧
    (NCAA.calculate_spread_value 0 (some 2) 0 0).pick_team = "PASS" ∧
    (NBA.calculate_spread_value constCdf 0 (some 0)).pick_team = "PASS" ∧
    (NBA.calculate_spread_value constCdf 2 (some 0)).pick_team = "AWAY" :=
  ⟨(c8_pick_threshold_amended.1 0 0 0 3).1 (by norm_num),
   (c8_pick_threshold_amended.1 0 0 0 2).2.2 (by norm_num),
   (c8_pick_threshold_amended.2 constCdf 0 0).2.1 (by norm_num),
   (c8_pick_threshold_amended.2 constCdf 2 0).2.2 (by norm_num)⟩

/-- The concrete NBA team used by the weight-redistribution
counterexample: season offence 100, 10-game rolling offence 110, 20-game
rolling value absent. -/
def c9Team : NBA.Team :=
  ⟨some 100, none, some 110, none, none, none, none, none, none, none,
   none, none, none, [], none, none⟩

/-- Claim C9 (corrected).  Counterexample to the claim as stated: with the
20-game rolling value missing, `_blend_efficiency` blends with the fixed
weights 0.55/0.45, not the proportionally redistributed 0.40/0.75 and
0.35/0.75 — for season 100 and 10-game 110 the code yields 104.5 while
proportional redistribution would yield 104.666… . -/
theorem c9_counterexample :
    NBA.blend_efficiency c9Team .oe .home NBA.AVG_EFFICIENCY = 209/2 ∧
    proportionalBlendNoR20 100 110 = 314/3 ∧
    NBA.blend_efficiency c9Team .oe .home NBA.AVG_EFFICIENCY ≠
      proportionalBlendNoR20 100 110 := by
  refine ⟨?_, ?_, ?_⟩ <;>
    simp only [NBA.blend_efficiency, proportionalBlendNoR20, c9Team,
      NBA.Team.seasonStat, NBA.Team.rolling10Stat, NBA.Team.rolling20Stat,
      NBA.Team.locStat, NBA.SEASON_WEIGHT, NBA.ROLLING_10_WEIGHT,
      NBA.ROLLING_20_WEIGHT, NBA.AVG_EFFICIENCY, Option.getD] <;>
    norm_num

/-- Claim C9 (amended): with all three values present the blend uses the
fixed weights 0.40/0.35/0.25, which sum to 1.0; when the 20-game value is
absent the code switches to the fixed pair 0.55/0.45 (and to 0.60/0.40
when instead the 10-game value is absent) rather than redistributing the
configured weights proportionally; a missing rolling value is never
treated as zero — with no rolling values at all the blend returns the
season value unchanged. -/
theorem c9_blend_weights_amended :
    NBA.SEASON_WEIGHT + NBA.ROLLING_10_WEIGHT + NBA.ROLLING_20_WEIGHT = 1 ∧
    (∀ (t : NBA.Team) (k : NBA.StatKey) (loc : NBA.Loc) (avg r10 r20 : ℚ),
      t.rolling10Stat k = some r10 → t.rolling20Stat k = some r20 →
      t.locStat loc k = none →
      NBA.blend_efficiency t k loc avg =
        ((t.seasonStat k).getD avg) * NBA.SEASON_WEIGHT +
          r10 * NBA.ROLLING_10_WEIGHT + r20 * NBA.ROLLING_20_WEIGHT) ∧
    (∀ (t : NBA.Team) (k : NBA.StatKey) (loc : NBA.Loc) (avg r10 : ℚ),
      t.rolling10Stat k = some r10 → t.rolling20Stat k = none →
      t.locStat loc k = none →
      NBA.blend_efficiency t k loc avg =
        ((t.seasonStat k).getD avg) * 0.55 + r10 * 0.45) ∧
    (∀ (t : NBA.Team) (k : NBA.StatKey) (loc : NBA.Loc) (avg r20 : ℚ),
      t.rolling10Stat k = none → t.rolling20Stat k = some r20 →
      t.locStat loc k = none →
      NBA.blend_efficiency t k loc avg =
        ((t.seasonStat k).getD avg) * 0.60 + r20 * 0.40) ∧
    ((0.55 : ℚ) + 0.45 = 1 ∧ (0.60 : ℚ) + 0.40 = 1) ∧
    (∀ (k : NBA.StatKey) (loc : NBA.Loc) (avg : ℚ),
      NBA.blend_efficiency NBA.emptyTeam k loc avg = avg) := by
  refine ⟨by norm_num [NBA.SEASON_WEIGHT, NBA.ROLLING_10_WEIGHT,
      NBA.ROLLING_20_WEIGHT],
    fun t k loc avg r10 r20 h10 h20 hloc => ?_,
    fun t k loc avg r10 h10 h20 hloc => ?_,
    fun t k loc avg r20 h10 h20 hloc => ?_,
    ⟨by norm_num, by norm_num⟩,
    fun k loc avg => ?_⟩
  · simp only [NBA.blend_efficiency, h10, h20, hloc]
  · simp only [NBA.blend_efficiency, h10, h20, hloc]
  · simp only [NBA.blend_efficiency, h10, h20, hloc]
  · cases k <;> cases loc <;>
      simp [NBA.blend_efficiency, NBA.emptyTeam, NBA.Team.seasonStat,
        NBA.Team.rolling10Stat, NBA.Team.rolling20Stat, NBA.Team.locStat]

/-- Witness for `c9_blend_weights_amended` at concrete inputs. -/
theorem c9_blend_weights_amended_witness :
    NBA.blend_efficiency c9Team .oe .home NBA.AVG_EFFICIENCY =
      ((c9Team.seasonStat .oe).getD NBA.AVG_EFFICIENCY) * 0.55 + 110 * 0.45 :=
  (c9_blend_weights_amended.2.2.1 c9Team .oe .home NBA.AVG_EFFICIENCY 110
    (by decide) (by decide) (by decide))

/-- Claim C2 (corrected).  Counterexample to the claim as stated: the NBA
moneyline grader with a missing away price returns a result whose pick
field is Python `None`, not the distinguished string `NO_LINE`. -/
theorem c2_counterexample :
    (NBA.calculate_moneyline_value constCdf 0 none (some 100)).ml_pick = none ∧
    (NBA.calculate_moneyline_value constCdf 0 none (some 100)).ml_pick ≠
      some "NO_LINE" := by
  constructor <;> simp [NBA.calculate_moneyline_value]

/-- Claim C2 (amended): a missing market line is handled without raising
in all three markets of both engines; the NCAA spread, NCAA total, NCAA
moneyline, NBA spread and NBA total graders return the distinguished
`NO_LINE` pick, while the NBA moneyline grader returns its distinguished
no-pick result with the pick field left as Python `None`. -/
theorem c2_no_line_amended :
    (∀ p ff sit : ℚ,
      (NCAA.calculate_spread_value p none ff sit).pick_team = "NO_LINE") ∧
    (∀ pt : ℚ, (NCAA.calculate_total_value pt none).pick = "NO_LINE") ∧
    (∀ (w : ℚ → ℚ) (p : ℚ),
      (NCAA.calculate_moneyline_value w p none).ml_pick = "NO_LINE") ∧
    (∀ (w : ℚ → ℚ) (p : ℚ) (best : NCAA.BestOdds),
      best.away_ml.bind (fun q => q.price) = none ∨
      best.home_ml.bind (fun q => q.price) = none →
      (NCAA.calculate_moneyline_value w p (some ⟨some best⟩)).ml_pick =
        "NO_LINE") ∧
    (∀ (cdf : ℚ → ℚ) (p : ℚ),
      (NBA.calculate_spread_value cdf p none).pick_team = "NO_LINE") ∧
    (∀ pt : ℚ, (NBA.calculate_total_value pt none).pick = "NO_LINE") ∧
    (∀ (cdf : ℚ → ℚ) (p : ℚ) (aml hml : Option ℚ),
      aml = none ∨ hml = none →
      (NBA.calculate_moneyline_value cdf p aml hml).ml_pick = none) := by
  refine ⟨fun p ff sit => rfl, fun pt => rfl, fun w p => rfl,
    fun w p best h => ?_, fun cdf p => rfl, fun pt => rfl,
    fun cdf p aml hml h => ?_⟩
  · simp only [NCAA.calculate_moneyline_value]
    rcases h with h | h
    · rw [h]
    · rw [h]; cases best.away_ml.bind (fun q => q.price) <;> rfl
  · rcases h with h | h <;> subst h
    · cases hml <;> rfl
    · cases aml <;> rfl

/-- Witness for `c2_no_line_amended` at concrete inputs. -/
theorem c2_no_line_amended_witness :
    (NCAA.calculate_moneyline_value constCdf 3
        (some ⟨some ⟨some ⟨none, "book"⟩, some ⟨some (-110), "book"⟩⟩⟩)).ml_pick =
      "NO_LINE" ∧
    (NBA.calculate_moneyline_value constCdf 3 (some (-110)) none).ml_pick =
      none :=
  ⟨c2_no_line_amended.2.2.2.1 constCdf 3
      ⟨some ⟨none, "book"⟩, some ⟨some (-110), "book"⟩⟩ (Or.inl rfl),
   c2_no_line_amended.2.2.2.2.2.2 constCdf 3 (some (-110)) none (Or.inr rfl)⟩

/-- An away team rated far above its opponent, used to reach the NBA
spread cap. -/
def c10Away : NBA.Team :=
  ⟨some 140, some 100, none, none, none, none, none, none, none, none,
   none, none, none, [], none, none⟩

/-- A weak home team, used to reach the NBA spread cap. -/
def c10Home : NBA.Team :=
  ⟨some 100, some 130, none, none, none, none, none, none, none, none,
   none, none, none, [], none, none⟩

/-- Claim C10 (corrected).  Counterexample to the claim as stated: the
plus-minus-16 cap is applied before the line-movement adjustment, so a
dominant away team whose projected spread hits the cap, with a confirming
2-point line move, is handed to the graders with a final adjusted spread
of 16.5, outside the interval `[-16, 16]`. -/
theorem c10_counterexample :
    NBA.adjusted_spread
        ((NBA.calculate_expected_score c10Away c10Home "Weak Home" true).predicted_spread)
        0 none none 2 (some (-15)) = 33/2 ∧
    (16 : ℚ) < 33/2 := by
  constructor
  · have hs : (NBA.calculate_expected_score c10Away c10Home "Weak Home"
        true).predicted_spread = 115/2 := by
      simp +decide only [NBA.calculate_expected_score, NBA.expected_core,
        NBA.blend_efficiency, NBA.blend_pace, NBA.Team.seasonStat,
        NBA.Team.rolling10Stat, NBA.Team.rolling20Stat, NBA.Team.locStat,
        NBA.get_home_court_advantage, NBA.AVG_EFFICIENCY, NBA.AVG_PACE,
        NBA.AVG_TOTAL, NBA.SEASON_WEIGHT, NBA.ROLLING_10_WEIGHT,
        NBA.ROLLING_20_WEIGHT, NBA.LOCATION_BLEND_WEIGHT,
        NBA.EFFICIENCY_DEFLATOR, NBA.TOTAL_REGRESSION,
        NBA.TEMPO_TOTAL_FACTOR, c10Away, c10Home, pyOr, pyTruthy,
        Option.getD, round10, pyRound_eq_floor]
      norm_num
    rw [hs]
    simp only [NBA.adjusted_spread, NBA.LINE_MOVEMENT_CONFIRMATION,
      NBA.LINE_MOVEMENT_CAUTION, NBA.LINE_MOVEMENT_CONFIRM_THRESHOLD,
      NBA.LINE_MOVEMENT_CAUTION_THRESHOLD, Option.isSome]
    norm_num
  · norm_num

/-- A value clamped to plus-minus 16 and then nudged by at most half a
point stays within plus-minus 16.5. -/
theorem cap_plus_nudge_bound (x lm : ℚ) (hlm : |lm| ≤ 0.5) :
    |max (-16.0) (min 16.0 x) + lm| ≤ 16.5 := by
  rw [abs_le] at hlm ⊢
  have h1 : -16 ≤ max (-16.0) (min 16.0 x) := by
    have : (-16.0 : ℚ) = -16 := by norm_num
    rw [← this]
    exact le_max_left _ _
  have h2 : max (-16.0) (min 16.0 x) ≤ 16 :=
    max_le (by norm_num) (le_trans (min_le_left _ _) (by norm_num))
  constructor <;> [nlinarith [hlm.1]; nlinarith [hlm.2]]

/-- Claim C10 (amended): the final adjusted spread handed by
`analyze_game` to the spread, total and moneyline graders always lies in
the interval `[-16.5, +16.5]`: the plus-minus-16 cap is applied before the
line-movement adjustment, which can then push the value up to
`LINE_MOVEMENT_CONFIRMATION = LINE_MOVEMENT_CAUTION = 0.5` points past
the cap. -/
theorem c10_spread_bound_amended
    (predicted_spread sit_total : ℚ) (ff_edge def_signal : Option ℚ)
    (spread_movement : ℚ) (actual_spread : Option ℚ) :
    |NBA.adjusted_spread predicted_spread sit_total ff_edge def_signal
        spread_movement actual_spread| ≤ 16.5 := by
  unfold NBA.adjusted_spread
  apply cap_plus_nudge_bound
  simp only [NBA.LINE_MOVEMENT_CONFIRMATION, NBA.LINE_MOVEMENT_CAUTION]
  split_ifs <;> (rw [abs_le]; constructor <;> norm_num)

/-- Average quality flags for the team whose spread pick the report is
filtering (a .500 team in a normal conference). -/
def c5Quality : NCAA.Quality := ⟨1/2, false, false, false⟩

/-- A concrete analysed game: the away team carries `adj_em = -10`, well
below the betting floor, and its graded spread value is a 5-star AWAY
pick (market line +6 against a model line of 0). -/
def c5Analysis : NCAA.Analysis :=
  { spread_value := NCAA.calculate_spread_value 0 (some 6) 0 0
    away_quality := c5Quality
    home_quality := c5Quality
    away_data := { NCAA.emptyTeam with adj_em := some (-10) }
    home_data := NCAA.emptyTeam }

/-- Claim C5 (code bug).  The report's AdjEM quality filter reads
`analysis.get('away'/'home', {})`, but `analyze_game` stores the team
dicts under `away_data`/`home_data`, so the lookup always yields the
empty dict and `pick_adjem` is always 0: a 5-star AWAY spread pick whose
team has `adj_em = -10 < MIN_ADJEM_TO_BET = -5` is still emitted into the
pick list instead of being routed to the games-to-avoid list, contrary to
the comments at analyze_games.py lines 1394-1401. -/
theorem c5_adjem_filter_dead :
    c5Analysis.away_data.adj_em = some (-10) ∧
    ((-10 : ℚ) < NCAA.MIN_ADJEM_TO_BET) ∧
    c5Analysis.spread_value.pick_team = "AWAY" ∧
    c5Analysis.spread_value.confidence_stars = 5 ∧
    NCAA.report_spread_pick_decision c5Analysis = .picked 5 := by
  have hsv : NCAA.calculate_spread_value 0 (some 6) 0 0 =
      ⟨"AWAY", 5, 6, 0, some 6⟩ := by
    simp only [NCAA.calculate_spread_value, round10, pyRound_eq_floor]
    norm_num <;> decide
  refine ⟨rfl, by norm_num [NCAA.MIN_ADJEM_TO_BET], ?_, ?_, ?_⟩
  · show (NCAA.calculate_spread_value 0 (some 6) 0 0).pick_team = "AWAY"
    rw [hsv]
  · show (NCAA.calculate_spread_value 0 (some 6) 0 0).confidence_stars = 5
    rw [hsv]
  · show NCAA.report_spread_pick_decision c5Analysis = .picked 5
    unfold NCAA.report_spread_pick_decision c5Analysis
    rw [hsv]
    simp +decide only [NCAA.report_pick_adjem, NCAA.MIN_ADJEM_TO_BET,
      NCAA.MAX_SPREAD_THRESHOLD, NCAA.LARGE_SPREAD_THRESHOLD,
      NCAA.LARGE_SPREAD_EXTRA_EDGE, c5Quality, Option.getD]
    norm_num

/-- Every injury tier carries an impact of at most a tenth of a point. -/
theorem injury_tier_impact_le (ppg usage : ℚ) :
    NBA.injury_tier_impact ppg usage ≤ -0.1 := by
  unfold NBA.injury_tier_impact
  split_ifs <;> norm_num

/-- An `Out` player with at least 15 points per game always contributes a
negative tier impact and counts as a starter in the injury loop. -/
theorem injury_step_out (st : ℚ × ℕ) (i : NBA.Injury)
    (hs : i.status = "Out") (hp : 15 ≤ pyOr i.ppg 0) :
    ∃ adj : ℚ, adj ≤ -0.1 ∧ NBA.injury_step st i = (st.1 + adj, st.2 + 1) := by
  refine ⟨NBA.injury_tier_impact (pyOr i.ppg 0) (pyOr i.usage_rate 0.10) * 1.0,
    ?_, ?_⟩
  · have := injury_tier_impact_le (pyOr i.ppg 0) (pyOr i.usage_rate 0.10)
    nlinarith
  · unfold NBA.injury_step NBA.status_factor
    rw [hs]
    have hne : NBA.injury_tier_impact (pyOr i.ppg 0)
        (pyOr i.usage_rate 0.10) * 1.0 ≠ 0 := by
      have := injury_tier_impact_le (pyOr i.ppg 0) (pyOr i.usage_rate 0.10)
      intro hzero
      nlinarith
    have hcond : NBA.injury_tier_impact (pyOr i.ppg 0)
        (pyOr i.usage_rate 0.10) * 1.0 ≠ 0 ∧
        (5 ≤ pyOr i.ppg 0 ∨ 15 ≤ pyOr i.minutes 0) :=
      ⟨hne, Or.inl (by linarith)⟩
    simp only [eq_self_iff_true, if_true]
    rw [if_pos hcond, if_pos (show (10:ℚ) ≤ pyOr i.ppg 0 by linarith)]

/-- The depth stage never shrinks a negative total past 70 percent of a
negative upper bound. -/
theorem depth_adjust_le (t : NBA.Team) (x c : ℚ) (hx : x ≤ c) (hc : c ≤ 0) :
    NBA.depth_adjust t x ≤ 0.7 * c := by
  have hc7 : c ≤ 0.7 * c := by nlinarith
  unfold NBA.depth_adjust
  cases hb : pyTruthy t.bench_ppg with
  | none => simpa using le_trans hx hc7
  | some b =>
    cases hs : pyTruthy t.starters_ppg with
    | none => simpa using le_trans hx hc7
    | some s =>
      simp only
      split_ifs with hsum hred
      · set r := min (max 0 (b / (b + s) - NBA.LEAGUE_AVG_BENCH_SHARE) /
            NBA.LEAGUE_AVG_BENCH_SHARE) 1 * NBA.DEPTH_FACTOR_MAX with hrdef
        have hmin1 : min (max 0 (b / (b + s) - NBA.LEAGUE_AVG_BENCH_SHARE) /
            NBA.LEAGUE_AVG_BENCH_SHARE) 1 ≤ 1 := min_le_right _ _
        have hr3 : r ≤ 0.3 := by
          rw [hrdef]
          calc min (max 0 (b / (b + s) - NBA.LEAGUE_AVG_BENCH_SHARE) /
              NBA.LEAGUE_AVG_BENCH_SHARE) 1 * NBA.DEPTH_FACTOR_MAX
              ≤ 1 * NBA.DEPTH_FACTOR_MAX :=
                mul_le_mul_of_nonneg_right hmin1
                  (by norm_num [NBA.DEPTH_FACTOR_MAX])
            _ ≤ 0.3 := by norm_num [NBA.DEPTH_FACTOR_MAX]
        have hx0 : x < 0 := hred.2
        have h1r : (0.7:ℚ) ≤ 1 - r := by linarith
        have step1 : x * (1 - r) ≤ c * (1 - r) :=
          mul_le_mul_of_nonneg_right hx (by linarith)
        have step2 : c * (1 - r) ≤ 0.7 * c := by nlinarith
        linarith
      · exact le_trans hx hc7
      · exact le_trans hx hc7

/-- Claim C6 (corrected).  Counterexample to the claim as stated: the NCAA
situational adjuster applies no floor cap to a team's summed injury
impact — two `Out` players of 15 and 16 points per game already produce a
per-team injury adjustment of −8, strictly below the −6 floor the claim
asserts for every team and injury list. -/
theorem c6_counterexample :
    NCAA.team_injury_total
        [⟨"Starter A", "Out", some 15, ""⟩, ⟨"Starter B", "Out", some 16, ""⟩] =
      -8 ∧ (-8 : ℚ) < -6 := by
  constructor
  · simp +decide only [NCAA.team_injury_total, NCAA.calculate_injury_impact,
      List.map, List.sum_cons, List.sum_nil, Option.getD]
    norm_num
  · norm_num

/-- An NCAA `Out` player with at least 15 points per game is charged at
least 4 points. -/
theorem ncaa_out_star_le (i : NCAA.Injury) (hs : i.status = "Out")
    (hp : 15 ≤ i.ppg.getD 0) : NCAA.calculate_injury_impact i ≤ -4 := by
  unfold NCAA.calculate_injury_impact
  rw [if_neg (by simp [hs])]
  dsimp only
  rw [if_pos hp]
  split_ifs <;> norm_num

/-- Claim C6 (amended): the NBA injury calculation caps every per-team
aggregate at the −6 floor, and a team with two `Out` injuries of at least
15 points per game gets a strictly negative aggregate there; the NCAA
situational adjuster also charges such a pair strictly negatively (at
least −8), but applies no floor cap at all, as `c6_counterexample`
shows. -/
theorem c6_injury_floor_amended :
    (∀ t : NBA.Team, -6 ≤ NBA.calculate_injury_impact t) ∧
    (∀ (t : NBA.Team) (i1 i2 : NBA.Injury),
      t.injuries = [i1, i2] → i1.status = "Out" → i2.status = "Out" →
      15 ≤ pyOr i1.ppg 0 → 15 ≤ pyOr i2.ppg 0 →
      NBA.calculate_injury_impact t < 0) ∧
    (∀ i1 i2 : NCAA.Injury,
      i1.status = "Out" → i2.status = "Out" →
      15 ≤ i1.ppg.getD 0 → 15 ≤ i2.ppg.getD 0 →
      NCAA.team_injury_total [i1, i2] ≤ -8) := by
  refine ⟨fun t => ?_, fun t i1 i2 ht h1s h2s h1p h2p => ?_,
    fun i1 i2 h1s h2s h1p h2p => ?_⟩
  · by_cases he : t.injuries = []
    · simp [NBA.calculate_injury_impact, he]
    · unfold NBA.calculate_injury_impact
      rw [if_neg he]
      have h1 : (-6.0 : ℚ) ≤ max (NBA.depth_adjust t
          (if 2 ≤ (t.injuries.foldl NBA.injury_step (0, 0)).2 then
            (t.injuries.foldl NBA.injury_step (0, 0)).1 +
              (if 3 ≤ (t.injuries.foldl NBA.injury_step (0, 0)).2 then
                NBA.MULTIPLE_STARTERS_OUT * 1.25 else NBA.MULTIPLE_STARTERS_OUT)
          else (t.injuries.foldl NBA.injury_step (0, 0)).1)) (-6.0) :=
        le_max_right _ _
      have h2 := round10_mono h1
      have h3 : round10 (-6.0) = -6 := by
        rw [round10, pyRound_eq_floor]
        norm_num
      linarith
  · obtain ⟨a1, ha1, he1⟩ := injury_step_out (0, 0) i1 h1s h1p
    obtain ⟨a2, ha2, he2⟩ := injury_step_out (NBA.injury_step (0, 0) i1) i2 h2s h2p
    have hfold : t.injuries.foldl NBA.injury_step (0, 0) =
        (0 + a1 + a2, 0 + 1 + 1) := by
      rw [ht]
      calc List.foldl NBA.injury_step (0, 0) [i1, i2]
          = NBA.injury_step (NBA.injury_step (0, 0) i1) i2 := by
            simp [List.foldl]
        _ = ((NBA.injury_step (0, 0) i1).1 + a2,
             (NBA.injury_step (0, 0) i1).2 + 1) := he2
        _ = (0 + a1 + a2, 0 + 1 + 1) := by rw [he1]
    have hne : t.injuries ≠ [] := by rw [ht]; simp
    unfold NBA.calculate_injury_impact
    rw [if_neg hne, hfold]
    dsimp only
    rw [if_pos (by norm_num : 2 ≤ 0 + 1 + 1),
      if_neg (by norm_num : ¬ 3 ≤ 0 + 1 + 1)]
    have htot1 : (0 + a1 + a2 : ℚ) + NBA.MULTIPLE_STARTERS_OUT ≤ -1.2 := by
      have : NBA.MULTIPLE_STARTERS_OUT = -1 := by
        norm_num [NBA.MULTIPLE_STARTERS_OUT]
      rw [this]
      linarith
    have hd := depth_adjust_le t _ (-1.2) htot1 (by norm_num)
    have hcap : max (NBA.depth_adjust t
        (0 + a1 + a2 + NBA.MULTIPLE_STARTERS_OUT)) (-6.0) ≤ -0.84 :=
      max_le (le_trans hd (by norm_num)) (by norm_num)
    have h2 := round10_mono hcap
    have h3 : round10 (-0.84) = -0.8 := by
      rw [round10, pyRound_eq_floor]
      norm_num
    have : round10 (max (NBA.depth_adjust t
        (0 + a1 + a2 + NBA.MULTIPLE_STARTERS_OUT)) (-6.0)) ≤ -0.8 := by
      rw [← h3]; exact h2
    linarith
  · have l1 := ncaa_out_star_le i1 h1s h1p
    have l2 := ncaa_out_star_le i2 h2s h2p
    simp only [NCAA.team_injury_total, List.map, List.sum_cons, List.sum_nil]
    linarith

/-- Witness for `c6_injury_floor_amended` at concrete inputs: a team with
two 15-plus-PPG players out. -/
theorem c6_injury_floor_amended_witness :
    (-6 ≤ NBA.calculate_injury_impact
      { NBA.emptyTeam with injuries :=
          [⟨"A", "Out", some 15, none, none⟩, ⟨"B", "Out", some 16, none, none⟩] }) ∧
    NBA.calculate_injury_impact
      { NBA.emptyTeam with injuries :=
          [⟨"A", "Out", some 15, none, none⟩, ⟨"B", "Out", some 16, none, none⟩] } < 0 ∧
    NCAA.team_injury_total
      [⟨"A", "Out", some 15, ""⟩, ⟨"B", "Out", some 16, ""⟩] ≤ -8 :=
  ⟨c6_injury_floor_amended.1 _,
   c6_injury_floor_amended.2.1 _ ⟨"A", "Out", some 15, none, none⟩
     ⟨"B", "Out", some 16, none, none⟩ rfl rfl rfl
     (by norm_num [pyOr, pyTruthy]) (by norm_num [pyOr, pyTruthy]),
   c6_injury_floor_amended.2.2 ⟨"A", "Out", some 15, ""⟩
     ⟨"B", "Out", some 16, ""⟩ rfl rfl (by norm_num) (by norm_num)⟩

/-- The expected game tempo computed inside the NCAA `expected_core`
(average of the two effective tempos regressed 90/10 to the league
mean). -/
def NCAA.game_tempo (away home : NCAA.Team) : ℚ :=
  ((NCAA.eff_tempo away + NCAA.eff_tempo home) / 2) * 0.9 + NCAA.AVG_TEMPO * 0.1

/-- On a neutral court the NCAA projected spread (pre-rounding) is the
deflated net-rating difference times tempo: home minus away. -/
theorem ncaa_spread_formula (away home : NCAA.Team) (name : String) :
    (NCAA.expected_core away home name true).predicted_spread =
      (NCAA.net home - NCAA.net away) * NCAA.EFFICIENCY_DEFLATOR *
        NCAA.game_tempo away home / 100 := by
  unfold NCAA.expected_core NCAA.net NCAA.game_tempo
    NCAA.get_home_court_advantage
  dsimp only
  rw [if_pos rfl]
  ring

/-- The NCAA game tempo is positive when the tempo entries of both teams
are absent or nonnegative. -/
theorem ncaa_game_tempo_pos (away home : NCAA.Team)
    (h1 : optNonneg away.adj_tempo) (h2 : optNonneg away.sr_pace)
    (h3 : optNonneg home.adj_tempo) (h4 : optNonneg home.sr_pace) :
    0 < NCAA.game_tempo away home := by
  have ha : 0 < NCAA.eff_tempo away :=
    firstTruthy_pos _ _ _ h1 h2 (by norm_num [NCAA.AVG_TEMPO])
  have hb : 0 < NCAA.eff_tempo home :=
    firstTruthy_pos _ _ _ h3 h4 (by norm_num [NCAA.AVG_TEMPO])
  unfold NCAA.game_tempo
  have : (0:ℚ) < NCAA.AVG_TEMPO := by norm_num [NCAA.AVG_TEMPO]
  nlinarith

/-- The blended pace used in the NBA `expected_core` for one team. -/
def NBA.team_pace (t : NBA.Team) : ℚ :=
  NBA.blend_pace t (pyOr t.adj_tempo NBA.AVG_PACE)

/-- The expected game pace computed inside the NBA `expected_core`. -/
def NBA.game_pace (away home : NBA.Team) : ℚ :=
  ((NBA.team_pace away + NBA.team_pace home) / 2) * 0.9 + NBA.AVG_PACE * 0.1

/-- On a neutral court the NBA projected spread (pre-rounding) is the
deflated blended-net-rating difference times pace: away minus home. -/
theorem nba_spread_formula (away home : NBA.Team) (name : String) :
    (NBA.expected_core away home name true).predicted_spread =
      (NBA.net away .away - NBA.net home .home) * NBA.EFFICIENCY_DEFLATOR *
        NBA.game_pace away home / 100 := by
  unfold NBA.expected_core NBA.net NBA.game_pace NBA.team_pace
    NBA.get_home_court_advantage
  dsimp only
  rw [if_pos rfl]
  ring

/-- A team's blended pace is positive when its pace entries are absent or
nonnegative. -/
theorem nba_team_pace_pos (t : NBA.Team) (h1 : optNonneg t.adj_tempo)
    (h2 : optNonneg t.rolling_10_pace) (h3 : optNonneg t.rolling_20_pace) :
    0 < NBA.team_pace t := by
  have hbase : 0 < pyOr t.adj_tempo NBA.AVG_PACE :=
    pyOr_pos _ _ h1 (by norm_num [NBA.AVG_PACE])
  unfold NBA.team_pace NBA.blend_pace
  cases h10 : t.rolling_10_pace with
  | none =>
    cases h20 : t.rolling_20_pace with
    | none => simpa using hbase
    | some b => simpa using hbase
  | some a =>
    have ha : 0 ≤ a := by rw [h10] at h2; exact h2
    cases h20 : t.rolling_20_pace with
    | none =>
      simp only
      linarith
    | some b =>
      have hbpos : 0 ≤ b := by rw [h20] at h3; exact h3
      simp only [NBA.SEASON_WEIGHT, NBA.ROLLING_10_WEIGHT,
        NBA.ROLLING_20_WEIGHT]
      norm_num
      linarith

/-- The NBA game pace is positive under the same conditions. -/
theorem nba_game_pace_pos (away home : NBA.Team)
    (h1 : optNonneg away.adj_tempo) (h2 : optNonneg away.rolling_10_pace)
    (h3 : optNonneg away.rolling_20_pace) (h4 : optNonneg home.adj_tempo)
    (h5 : optNonneg home.rolling_10_pace) (h6 : optNonneg home.rolling_20_pace) :
    0 < NBA.game_pace away home := by
  have ha := nba_team_pace_pos away h1 h2 h3
  have hb := nba_team_pace_pos home h4 h5 h6
  unfold NBA.game_pace
  have : (0:ℚ) < NBA.AVG_PACE := by norm_num [NBA.AVG_PACE]
  nlinarith

/-- The away-side team of the sign-convention counterexample: a league
average team (all fields absent). -/
def c1Away : NBA.Team := NBA.emptyTeam

/-- The home-side team of the sign-convention counterexample: offence
120, defence 100 — blended net rating 20 points above the away side. -/
def c1Home : NBA.Team :=
  ⟨some 120, some 100, none, none, none, none, none, none, none, none,
   none, none, none, [], none, none⟩

/-- Claim C1 (corrected).  Counterexample to the claim as stated: on a
neutral court the NBA engine's home team has a blended net rating 20
points above the away team's, yet the returned projected spread is −16.4:
the NBA engine computes spread as away score minus home score, not the
claimed fixed convention home score minus away score (the rounded scores
give 119.3 − 102.8 = 16.5 ≠ −16.4), so the stronger team is favoured by a
negative spread, and the two engine variants do not share one sign
convention. -/
theorem c1_counterexample :
    NBA.net c1Away .away < NBA.net c1Home .home ∧
    (NBA.calculate_expected_score c1Away c1Home "Stronger Home" true).predicted_spread =
      -82/5 ∧
    (-82/5 : ℚ) < 0 ∧
    (NBA.calculate_expected_score c1Away c1Home "Stronger Home" true).predicted_spread ≠
      (NBA.calculate_expected_score c1Away c1Home "Stronger Home" true).home_score -
        (NBA.calculate_expected_score c1Away c1Home "Stronger Home" true).away_score := by
  have hev : NBA.calculate_expected_score c1Away c1Home "Stronger Home" true =
      ⟨514/5, 1193/10, -82/5, 1116/5, 501/5, 513/5, 119, 0⟩ := by
    simp +decide only [NBA.calculate_expected_score, NBA.expected_core,
      NBA.blend_efficiency, NBA.blend_pace, NBA.Team.seasonStat,
      NBA.Team.rolling10Stat, NBA.Team.rolling20Stat, NBA.Team.locStat,
      NBA.get_home_court_advantage, NBA.AVG_EFFICIENCY, NBA.AVG_PACE,
      NBA.AVG_TOTAL, NBA.SEASON_WEIGHT, NBA.ROLLING_10_WEIGHT,
      NBA.ROLLING_20_WEIGHT, NBA.LOCATION_BLEND_WEIGHT,
      NBA.EFFICIENCY_DEFLATOR, NBA.TOTAL_REGRESSION,
      NBA.TEMPO_TOTAL_FACTOR, c1Away, c1Home, NBA.emptyTeam, pyOr, pyTruthy,
      Option.getD, round10, pyRound_eq_floor]
    norm_num
  refine ⟨?_, ?_, by norm_num, ?_⟩
  · simp only [NBA.net, NBA.blend_efficiency, NBA.Team.seasonStat,
      NBA.Team.rolling10Stat, NBA.Team.rolling20Stat, NBA.Team.locStat,
      NBA.AVG_EFFICIENCY, c1Away, c1Home, NBA.emptyTeam, Option.getD]
    norm_num
  · rw [hev]
  · rw [hev]
    norm_num

/-- Claim C1 (amended): each engine is monotone in the blended net
ratings under its own sign convention.  On a neutral court with zero
situational adjustments, and with all pace entries absent-or-nonnegative,
the NCAA engine (spread = home − away) gives the team with the strictly
higher effective net rating a pre-rounding spread of its sign (negative
favours away, positive favours home), and the NBA engine
(spread = away − home) does the same with the opposite orientation
(positive favours away); the returned rounded spread never favours the
weaker side. -/
theorem c1_spread_sign_amended :
    (∀ (away home : NCAA.Team) (name : String),
      optNonneg away.adj_tempo → optNonneg away.sr_pace →
      optNonneg home.adj_tempo → optNonneg home.sr_pace →
      ((NCAA.net home < NCAA.net away →
        (NCAA.expected_core away home name true).predicted_spread < 0) ∧
       (NCAA.net away < NCAA.net home →
        0 < (NCAA.expected_core away home name true).predicted_spread) ∧
       (NCAA.net away < NCAA.net home → ∀ r : NCAA.ExpectedCore,
        NCAA.calculate_expected_score (some away) (some home) name true = some r →
        0 ≤ r.predicted_spread) ∧
       (NCAA.net home < NCAA.net away → ∀ r : NCAA.ExpectedCore,
        NCAA.calculate_expected_score (some away) (some home) name true = some r →
        r.predicted_spread ≤ 0))) ∧
    (∀ (away home : NBA.Team) (name : String),
      optNonneg away.adj_tempo → optNonneg away.rolling_10_pace →
      optNonneg away.rolling_20_pace → optNonneg home.adj_tempo →
      optNonneg home.rolling_10_pace → optNonneg home.rolling_20_pace →
      ((NBA.net home .home < NBA.net away .away →
        0 < (NBA.expected_core away home name true).predicted_spread) ∧
       (NBA.net away .away < NBA.net home .home →
        (NBA.expected_core away home name true).predicted_spread < 0) ∧
       (NBA.net home .home < NBA.net away .away →
        0 ≤ (NBA.calculate_expected_score away home name true).predicted_spread) ∧
       (NBA.net away .away < NBA.net home .home →
        (NBA.calculate_expected_score away home name true).predicted_spread ≤ 0))) := by
  have h0 : round10 0 = 0 := by
    rw [round10, pyRound_eq_floor]
    norm_num
  constructor
  · intro away home name h1 h2 h3 h4
    have hT := ncaa_game_tempo_pos away home h1 h2 h3 h4
    have hd : (0:ℚ) < NCAA.EFFICIENCY_DEFLATOR := by
      norm_num [NCAA.EFFICIENCY_DEFLATOR]
    refine ⟨fun hlt => ?_, fun hlt => ?_, fun hlt r hr => ?_, fun hlt r hr => ?_⟩
    · rw [ncaa_spread_formula]
      nlinarith [mul_pos (mul_pos (sub_pos.mpr hlt) hd) hT]
    · rw [ncaa_spread_formula]
      nlinarith [mul_pos (mul_pos (sub_pos.mpr hlt) hd) hT]
    · have hpos : 0 < (NCAA.expected_core away home name true).predicted_spread := by
        rw [ncaa_spread_formula]
        nlinarith [mul_pos (mul_pos (sub_pos.mpr hlt) hd) hT]
      simp only [NCAA.calculate_expected_score, Option.getD,
        Option.some.injEq] at hr
      subst hr
      show (0:ℚ) ≤ round10 (NCAA.expected_core away home name true).predicted_spread
      have hm := round10_mono (le_of_lt hpos)
      linarith
    · have hneg : (NCAA.expected_core away home name true).predicted_spread < 0 := by
        rw [ncaa_spread_formula]
        nlinarith [mul_pos (mul_pos (sub_pos.mpr hlt) hd) hT]
      simp only [NCAA.calculate_expected_score, Option.getD,
        Option.some.injEq] at hr
      subst hr
      show round10 (NCAA.expected_core away home name true).predicted_spread ≤ 0
      have hm := round10_mono (le_of_lt hneg)
      linarith
  · intro away home name h1 h2 h3 h4 h5 h6
    have hT := nba_game_pace_pos away home h1 h2 h3 h4 h5 h6
    have hd : (0:ℚ) < NBA.EFFICIENCY_DEFLATOR := by
      norm_num [NBA.EFFICIENCY_DEFLATOR]
    refine ⟨fun hlt => ?_, fun hlt => ?_, fun hlt => ?_, fun hlt => ?_⟩
    · rw [nba_spread_formula]
      nlinarith [mul_pos (mul_pos (sub_pos.mpr hlt) hd) hT]
    · rw [nba_spread_formula]
      nlinarith [mul_pos (mul_pos (sub_pos.mpr hlt) hd) hT]
    · have hpos : 0 < (NBA.expected_core away home name true).predicted_spread := by
        rw [nba_spread_formula]
        nlinarith [mul_pos (mul_pos (sub_pos.mpr hlt) hd) hT]
      show (0:ℚ) ≤ round10 (NBA.expected_core away home name true).predicted_spread
      have hm := round10_mono (le_of_lt hpos)
      linarith
    · have hneg : (NBA.expected_core away home name true).predicted_spread < 0 := by
        rw [nba_spread_formula]
        nlinarith [mul_pos (mul_pos (sub_pos.mpr hlt) hd) hT]
      show round10 (NBA.expected_core away home name true).predicted_spread ≤ 0
      have hm := round10_mono (le_of_lt hneg)
      linarith

/-- Concrete NCAA team for the sign-convention witness: offence 110,
defence 95 (net +15). -/
def c1NcaaStrong : NCAA.Team :=
  ⟨some 110, some 95, none, none, none, none, none, "", none, []⟩

/-- Witness for `c1_spread_sign_amended` at concrete inputs: the stronger
away side in the NCAA engine gets a negative (home − away) spread, a
stronger away side in the NBA engine gets a nonnegative returned
(away − home) spread, and a stronger home side in the NBA engine gets a
nonpositive returned spread. -/
theorem c1_spread_sign_amended_witness :
    (NCAA.expected_core c1NcaaStrong NCAA.emptyTeam "Witness Game" true).predicted_spread < 0 ∧
    0 ≤ (NBA.calculate_expected_score c1Home c1Away "Witness Game" true).predicted_spread ∧
    (NBA.calculate_expected_score c1Away c1Home "Witness Game" true).predicted_spread ≤ 0 :=
  ⟨(c1_spread_sign_amended.1 c1NcaaStrong NCAA.emptyTeam "Witness Game"
      (by norm_num [c1NcaaStrong, optNonneg]) (by norm_num [c1NcaaStrong, optNonneg])
      (by norm_num [NCAA.emptyTeam, optNonneg]) (by norm_num [NCAA.emptyTeam, optNonneg])).1
    (by
      simp only [NCAA.net, NCAA.eff_oe, NCAA.eff_de, NCAA.eff_tempo,
        firstTruthy, pyTruthy, pyOr, NCAA.AVG_EFFICIENCY, NCAA.AVG_TEMPO,
        c1NcaaStrong, NCAA.emptyTeam]
      norm_num),
   (c1_spread_sign_amended.2 c1Home c1Away "Witness Game"
      (by norm_num [c1Home, optNonneg]) (by norm_num [c1Home, optNonneg])
      (by norm_num [c1Home, optNonneg])
      (by norm_num [c1Away, NBA.emptyTeam, optNonneg])
      (by norm_num [c1Away, NBA.emptyTeam, optNonneg])
      (by norm_num [c1Away, NBA.emptyTeam, optNonneg])).2.2.1
    (by
      simp only [NBA.net, NBA.blend_efficiency, NBA.Team.seasonStat,
        NBA.Team.rolling10Stat, NBA.Team.rolling20Stat, NBA.Team.locStat,
        NBA.AVG_EFFICIENCY, c1Home, c1Away, NBA.emptyTeam, Option.getD]
      norm_num),
   (c1_spread_sign_amended.2 c1Away c1Home "Witness Game"
      (by norm_num [c1Away, NBA.emptyTeam, optNonneg])
      (by norm_num [c1Away, NBA.emptyTeam, optNonneg])
      (by norm_num [c1Away, NBA.emptyTeam, optNonneg])
      (by norm_num [c1Home, optNonneg]) (by norm_num [c1Home, optNonneg])
      (by norm_num [c1Home, optNonneg])).2.2.2
    (by
      simp only [NBA.net, NBA.blend_efficiency, NBA.Team.seasonStat,
        NBA.Team.rolling10Stat, NBA.Team.rolling20Stat, NBA.Team.locStat,
        NBA.AVG_EFFICIENCY, c1Home, c1Away, NBA.emptyTeam, Option.getD]
      norm_num)⟩

/-- An NBA team dict whose efficiency and tempo entries hold exactly the
league averages. -/
def nbaAvgTeam : NBA.Team :=
  ⟨some NBA.AVG_EFFICIENCY, some NBA.AVG_EFFICIENCY, none, none, none, none,
   none, none, none, none, some NBA.AVG_PACE, none, none, [], none, none⟩

/-- Claim C3 (confirmed): with every optional numeric field absent, both
engines project without failing, and the projection is exactly the one a
pair of explicit league-average teams would get — a missing field falls
back to the league-average constant, never to zero.  On a neutral court
the NCAA projection is the closed-form league-average record (scores
70.3/70.3, spread 0, total 140.5 after the default-conference regression)
and the NBA projection likewise (scores 114.8/114.8, spread 0, total
229.6), and the NBA blend of an all-absent team returns the supplied
league average unchanged. -/
theorem c3_league_average_fallback :
    (∀ (name : String) (n : Bool),
      (NCAA.calculate_expected_score (some NCAA.emptyTeam)
        (some NCAA.emptyTeam) name n).isSome = true) ∧
    (∀ (name : String) (n : Bool),
      NCAA.calculate_expected_score (some NCAA.emptyTeam)
          (some NCAA.emptyTeam) name n =
        NCAA.calculate_expected_score (some NCAA.avgTeam)
          (some NCAA.avgTeam) name n) ∧
    (∀ name : String,
      NCAA.calculate_expected_score (some NCAA.emptyTeam)
          (some NCAA.emptyTeam) name true =
        some ⟨703/10, 703/10, 0, 281/2, 135, 135/2, 0, 100, 100, 0,
          100, 100, 100, 100, 135/2, 135/2⟩) ∧
    (∀ (k : NBA.StatKey) (loc : NBA.Loc) (avg : ℚ),
      NBA.blend_efficiency NBA.emptyTeam k loc avg = avg) ∧
    (∀ name : String,
      NBA.calculate_expected_score NBA.emptyTeam NBA.emptyTeam name true =
        ⟨574/5, 574/5, 0, 1148/5, 501/5, 573/5, 573/5, 0⟩) ∧
    (∀ (name : String) (n : Bool),
      NBA.calculate_expected_score NBA.emptyTeam NBA.emptyTeam name n =
        NBA.calculate_expected_score nbaAvgTeam nbaAvgTeam name n) := by
  refine ⟨fun name n => rfl, fun name n => ?_, fun name => ?_,
    fun k loc avg => ?_, fun name => ?_, fun name n => ?_⟩
  · have hcore : NCAA.expected_core NCAA.emptyTeam NCAA.emptyTeam name n =
        NCAA.expected_core NCAA.avgTeam NCAA.avgTeam name n := by
      unfold NCAA.expected_core
      norm_num [NCAA.eff_oe, NCAA.eff_de, NCAA.eff_tempo, firstTruthy,
        pyTruthy, pyOr, NCAA.emptyTeam, NCAA.avgTeam, NCAA.AVG_EFFICIENCY,
        NCAA.AVG_TEMPO]
    simp only [NCAA.calculate_expected_score, Option.getD]
    rw [hcore]
  · simp +decide only [NCAA.calculate_expected_score, NCAA.expected_core,
      NCAA.eff_oe, NCAA.eff_de, NCAA.eff_tempo,
      NCAA.get_home_court_advantage, NCAA.get_conference_regression_factor,
      NCAA.WEAK_CONFERENCES, NCAA.MID_MAJOR_CONFERENCES,
      NCAA.AVG_EFFICIENCY, NCAA.AVG_TEMPO, NCAA.AVG_TOTAL,
      NCAA.EFFICIENCY_DEFLATOR, NCAA.TEMPO_TOTAL_FACTOR,
      NCAA.emptyTeam, firstTruthy, pyTruthy, pyOr, Option.getD,
      round10, round1000, pyRound_eq_floor, if_true]
    norm_num
  · cases k <;> cases loc <;>
      simp [NBA.blend_efficiency, NBA.emptyTeam, NBA.Team.seasonStat,
        NBA.Team.rolling10Stat, NBA.Team.rolling20Stat, NBA.Team.locStat]
  · simp +decide only [NBA.calculate_expected_score, NBA.expected_core,
      NBA.blend_efficiency, NBA.blend_pace, NBA.Team.seasonStat,
      NBA.Team.rolling10Stat, NBA.Team.rolling20Stat, NBA.Team.locStat,
      NBA.get_home_court_advantage, NBA.AVG_EFFICIENCY, NBA.AVG_PACE,
      NBA.AVG_TOTAL, NBA.SEASON_WEIGHT, NBA.ROLLING_10_WEIGHT,
      NBA.ROLLING_20_WEIGHT, NBA.LOCATION_BLEND_WEIGHT,
      NBA.EFFICIENCY_DEFLATOR, NBA.TOTAL_REGRESSION, NBA.TEMPO_TOTAL_FACTOR,
      NBA.emptyTeam, pyOr, pyTruthy, Option.getD, round10,
      pyRound_eq_floor, if_true]
    norm_num
  · have hcore : NBA.expected_core NBA.emptyTeam NBA.emptyTeam name n =
        NBA.expected_core nbaAvgTeam nbaAvgTeam name n := by
      unfold NBA.expected_core
      norm_num [NBA.blend_efficiency, NBA.blend_pace, NBA.Team.seasonStat,
        NBA.Team.rolling10Stat, NBA.Team.rolling20Stat, NBA.Team.locStat,
        NBA.emptyTeam, nbaAvgTeam, NBA.AVG_EFFICIENCY, NBA.AVG_PACE,
        pyOr, pyTruthy, Option.getD]
    unfold NBA.calculate_expected_score
    rw [hcore]
